import Mathlib

/-!
Verification development for the multi-tenant todo manager with an
LLM tool-calling orchestrator.

The definitions below are a shallow embedding of the Python source:
  * the five MCP task tools (Phase05 backend/app/mcp/tools/)
  * the Phase03 agent runner (backend/app/agent/runner.py)
  * the Phase05 agent loop (backend/app/agent.py)
  * the Phase03 chat endpoint (backend/app/routes/chat.py)

Conventions of the embedding:
  * `datetime` values are modelled as integers (days for due dates,
    abstract ticks for created_at/updated_at); `datetime.utcnow()` is an
    explicit `now` argument.
  * Python `ValueError` is `ToolError.valueError`, a generic
    `Exception` is `ToolError.genericError`; both carry the message.
    Apostrophes occurring in source message texts are elided.
  * The database is a `Store`: a list of task rows plus the next
    autoincrement id.  A transaction is a pure function
    `Store -> Except ToolError (Store x result)`; an error leaves the
    store untouched by construction, which models rollback.
  * ISO date parsing is out of scope: `due_date` arguments arrive as the
    already-parsed value (`Option Int`).
-/

deriving instance DecidableEq for Except

set_option maxRecDepth 8000

namespace Todo

/-- Python `str.strip()`: drop leading and trailing whitespace.  Defined
on the character list so that it reduces inside the kernel (the library
`String.trim` is defined by well-founded recursion on byte positions and
does not). -/
def pyStrip (s : String) : String :=
  ⟨((s.data.dropWhile Char.isWhitespace).reverse.dropWhile Char.isWhitespace).reverse⟩

/-- Python `str.lower()` (the enum values handled here are ASCII). -/
def pyLower (s : String) : String := ⟨s.data.map Char.toLower⟩

/-- Python truthiness of an optional string (`None` and `""` are falsy). -/
def pyTruthyStr : Option String → Bool
  | none => false
  | some s => s != ""

/-- Python truthiness of an optional integer (`None` and `0` are falsy). -/
def pyTruthyInt : Option Int → Bool
  | none => false
  | some k => k != 0

/-- Errors raised by the tools: `valueError` models Python `ValueError`,
`genericError` models a plain `Exception`. -/
inductive ToolError where
  | valueError (msg : String)
  | genericError (msg : String)
deriving DecidableEq, Repr

/-- A row of the `tasks` table (Phase05 `app/models/task.py`). -/
structure Task where
  id : Int
  user_id : String
  title : String
  description : Option String
  completed : Bool
  created_at : Nat
  updated_at : Nat
  priority : Option String
  tags : Option (List String)
  due_date : Option Int
  recurrence : Option String
  recurrence_interval : Option Int
  parent_task_id : Option Int
deriving DecidableEq, Repr

/-- The persistent task store: rows plus the autoincrement counter. -/
structure Store where
  tasks : List Task
  nextId : Int
deriving DecidableEq, Repr

/-- The empty store. -/
def store0 : Store := ⟨[], 1⟩

/-- Database invariant maintained by the primary key and autoincrement:
ids are distinct, positive and below the counter. -/
def Store.WF (s : Store) : Prop :=
  (s.tasks.map (fun t => t.id)).Nodup ∧ ∀ t ∈ s.tasks, 0 < t.id ∧ t.id < s.nextId

/-- Valid values of `PriorityEnum`. -/
def priorityValues : List String := ["high", "medium", "low"]

/-- Valid values of `RecurrenceEnum`. -/
def recurrenceValues : List String := ["daily", "weekly", "monthly", "custom"]

/-- `Enum(value.lower())`: canonicalises to lower case, `none` on bad values. -/
def parseEnum (vals : List String) (p : String) : Option String :=
  if vals.contains (pyLower p) then some (pyLower p) else none

/-- `add_task` description normalisation: `if description:` then
`description.strip() if description.strip() else None`. -/
def addNormalizeDescription : Option String → Option String
  | none => none
  | some d => if d == "" then some d else if pyStrip d == "" then none else some (pyStrip d)

/-- `add_task` priority validation (guarded by Python truthiness). -/
def addValidatePriority (priority : Option String) : Except ToolError (Option String) :=
  match priority with
  | none => .ok none
  | some p =>
    if p == "" then .ok none
    else match parseEnum priorityValues p with
      | some v => .ok (some v)
      | none => .error (.valueError ("Invalid priority: " ++ p ++ ". Must be one of: high, medium, low"))

/-- `add_task` recurrence validation: rejects unknown values, `custom`
without a truthy interval, and a truthy interval below 1. -/
def addValidateRecurrence (recurrence : Option String) (recurrence_interval : Option Int) :
    Except ToolError (Option String) :=
  match recurrence with
  | none => .ok none
  | some r =>
    if r == "" then .ok none
    else match parseEnum recurrenceValues r with
      | none => .error (.valueError ("Invalid recurrence: " ++ r ++ ". Must be one of: daily, weekly, monthly, custom"))
      | some v =>
        if v == "custom" && !(pyTruthyInt recurrence_interval) then
          .error (.valueError "recurrence_interval is required when recurrence is custom")
        else match recurrence_interval with
          | some k => if k != 0 && k < 1 then .error (.valueError "recurrence_interval must be a positive integer") else .ok (some v)
          | none => .ok (some v)

/-- `add_task` MCP tool (Phase05 `app/mcp/tools/add_task.py`).
Validations run in source order; on success one row is inserted with
`completed` forced to `false`. -/
def add_task (s : Store) (now : Nat) (user_id title : String)
    (description : Option String := none) (priority : Option String := none)
    (tags : Option (List String) := none) (due_date : Option Int := none)
    (recurrence : Option String := none) (recurrence_interval : Option Int := none) :
    Except ToolError (Store × Task) :=
  if user_id == "" then .error (.valueError "user_id must be a non-empty string")
  else if pyStrip title == "" then .error (.valueError "title cannot be empty")
  else do
    let priorityV ← addValidatePriority priority
    let recurrenceV ← addValidateRecurrence recurrence recurrence_interval
    let t : Task :=
      { id := s.nextId, user_id := user_id, title := pyStrip title,
        description := addNormalizeDescription description,
        completed := false, created_at := now, updated_at := now,
        priority := priorityV, tags := tags, due_date := due_date,
        recurrence := recurrenceV, recurrence_interval := recurrence_interval,
        parent_task_id := none }
    .ok ({ tasks := s.tasks ++ [t], nextId := s.nextId + 1 }, t)

/-- Insert keeping newest-created first (used to model `ORDER BY created_at DESC`). -/
def insertByCreated (t : Task) : List Task → List Task
  | [] => [t]
  | u :: rest => if u.created_at ≤ t.created_at then t :: u :: rest else u :: insertByCreated t rest

/-- Sort newest-created first. -/
def sortByCreatedDesc : List Task → List Task
  | [] => []
  | t :: rest => insertByCreated t (sortByCreatedDesc rest)

/-- `list_tasks` MCP tool (Phase05 `app/mcp/tools/list_tasks.py`).
Note that the caller id is trimmed before the ownership filter. -/
def list_tasks (s : Store) (user_id : String) (status : String := "all") :
    Except ToolError (List Task) :=
  if pyStrip user_id == "" then .error (.valueError "user_id must be a non-empty string")
  else if !(["all", "pending", "completed"].contains status) then
    .error (.valueError "status must be one of: all, pending, completed")
  else
    let uid := pyStrip user_id
    let base := s.tasks.filter (fun t => t.user_id == uid)
    let filtered :=
      if status == "pending" then base.filter (fun t => t.completed == false)
      else if status == "completed" then base.filter (fun t => t.completed == true)
      else base
    .ok (sortByCreatedDesc filtered)

/-- The not-found message of `complete_task` (source text has an
apostrophe in it, elided here). -/
def completeNotFoundMsg (tid : Int) : String :=
  "Task with id " ++ toString tid ++ " not found or you do not have permission to access it"

/-- The not-found message of `delete_task`. -/
def deleteNotFoundMsg (tid : Int) : String :=
  "Task with id " ++ toString tid ++ " not found or you do not have permission to delete it"

/-- The not-found message of `update_task` (raised as a `ValueError`). -/
def updateNotFoundMsg (tid : Int) (uid : String) : String :=
  "Task with id " ++ toString tid ++ " not found or does not belong to user " ++ uid

/-- Next due date of a recurring task (`complete_task` lines 80-91):
only computed when the completed task has a due date; unknown recurrence
values and `custom` without a truthy interval yield no due date. -/
def advanceDue (r : String) (d : Int) (interval : Option Int) : Option Int :=
  if r == "daily" then some (d + 1)
  else if r == "weekly" then some (d + 7)
  else if r == "monthly" then some (d + 30)
  else if r == "custom" then
    match interval with
    | some k => if k != 0 then some (d + k) else none
    | none => none
  else none

/-- `complete_task` MCP tool (Phase05 `app/mcp/tools/complete_task.py`).
Marks the owned task completed; when the task carries a (truthy)
recurrence it also inserts the successor row in the same transaction.
Returns the new store, the updated task, and the optional successor. -/
def complete_task (s : Store) (now : Nat) (user_id : String) (task_id : Int) :
    Except ToolError (Store × Task × Option Task) :=
  if user_id == "" then .error (.valueError "user_id must be a non-empty string")
  else if task_id ≤ 0 then .error (.valueError "task_id must be a positive integer")
  else match s.tasks.find? (fun u => u.id == task_id && u.user_id == user_id) with
    | none => .error (.genericError (completeNotFoundMsg task_id))
    | some t =>
      let updated : Task := { t with completed := true, updated_at := now }
      let replaced := s.tasks.map (fun u => if u.id == task_id && u.user_id == user_id then updated else u)
      if pyTruthyStr t.recurrence then
        let nextDue : Option Int :=
          match t.due_date with
          | some d => advanceDue (t.recurrence.getD "") d t.recurrence_interval
          | none => none
        let nt : Task :=
          { id := s.nextId, user_id := t.user_id, title := t.title,
            description := t.description, completed := false,
            created_at := now, updated_at := now, priority := t.priority,
            tags := t.tags, due_date := nextDue, recurrence := t.recurrence,
            recurrence_interval := t.recurrence_interval, parent_task_id := some t.id }
        .ok ({ tasks := replaced ++ [nt], nextId := s.nextId + 1 }, updated, some nt)
      else
        .ok ({ tasks := replaced, nextId := s.nextId }, updated, none)

/-- `delete_task` MCP tool (Phase05 `app/mcp/tools/delete_task.py`).
Permanently removes the owned row; returns the deleted id. -/
def delete_task (s : Store) (user_id : String) (task_id : Int) :
    Except ToolError (Store × Int) :=
  if user_id == "" then .error (.valueError "user_id must be a non-empty string")
  else if task_id ≤ 0 then .error (.valueError "task_id must be a positive integer")
  else match s.tasks.find? (fun u => u.id == task_id && u.user_id == user_id) with
    | none => .error (.genericError (deleteNotFoundMsg task_id))
    | some _ =>
      .ok ({ tasks := s.tasks.eraseP (fun u => u.id == task_id), nextId := s.nextId }, task_id)

/-- The normalised field updates of `update_task`: an outer `some` means
the field was supplied. -/
structure UpdFields where
  title : Option String
  description : Option (Option String)
  priority : Option String
  tags : Option (List String)
  due_date : Option Int
  recurrence : Option String
  recurrence_interval : Option Int
deriving DecidableEq, Repr

/-- `update_task` title validation (`if title is not None`, lines 83-87). -/
def updValidateTitle : Option String → Except ToolError (Option String)
  | none => .ok none
  | some t =>
    if pyStrip t == "" then .error (.valueError "title cannot be empty")
    else .ok (some (pyStrip t))

/-- `update_task` description normalisation (line 90-91): a supplied
whitespace-only description becomes `NULL`. -/
def updNormalizeDescription : Option String → Option (Option String)
  | none => none
  | some d => some (if pyStrip d == "" then none else some (pyStrip d))

/-- `update_task` priority validation (lines 94-99). -/
def updValidatePriority : Option String → Except ToolError (Option String)
  | none => .ok none
  | some p =>
    match parseEnum priorityValues p with
    | some v => .ok (some v)
    | none => .error (.valueError ("Invalid priority: " ++ p ++ ". Must be one of: high, medium, low"))

/-- `update_task` recurrence validation (lines 102-111); unlike
`add_task` there is no positivity check on the interval. -/
def updValidateRecurrence (recurrence : Option String) (recurrence_interval : Option Int) :
    Except ToolError (Option String) :=
  match recurrence with
  | none => .ok none
  | some r =>
    match parseEnum recurrenceValues r with
    | none => .error (.valueError ("Invalid recurrence: " ++ r ++ ". Must be one of: daily, weekly, monthly, custom"))
    | some v =>
      if v == "custom" && !(pyTruthyInt recurrence_interval) then
        .error (.valueError "recurrence_interval is required when recurrence is custom")
      else .ok (some v)

/-- The pre-store validation phase of `update_task` (lines 77-119):
zero-fields check, title trim, description normalisation, enum parsing,
and the custom-recurrence interval requirement. -/
def updateValidateFields (title description priority : Option String)
    (tags : Option (List String)) (due_date : Option Int)
    (recurrence : Option String) (recurrence_interval : Option Int) :
    Except ToolError UpdFields :=
  if title.isNone && description.isNone && priority.isNone && tags.isNone
      && due_date.isNone && recurrence.isNone && recurrence_interval.isNone then
    .error (.valueError "At least one field must be provided for update")
  else do
    let titleV ← updValidateTitle title
    let priorityV ← updValidatePriority priority
    let recurrenceV ← updValidateRecurrence recurrence recurrence_interval
    .ok ⟨titleV, updNormalizeDescription description, priorityV, tags, due_date,
         recurrenceV, recurrence_interval⟩

/-- Apply the supplied updates to a row and refresh `updated_at`
(`update_task` lines 133-150). -/
def applyUpdate (t : Task) (v : UpdFields) (now : Nat) : Task :=
  { t with
    title := v.title.getD t.title,
    description := v.description.getD t.description,
    priority := match v.priority with | some p => some p | none => t.priority,
    tags := match v.tags with | some tg => some tg | none => t.tags,
    due_date := match v.due_date with | some d => some d | none => t.due_date,
    recurrence := match v.recurrence with | some r => some r | none => t.recurrence,
    recurrence_interval := match v.recurrence_interval with | some k => some k | none => t.recurrence_interval,
    updated_at := now }

/-- `update_task` MCP tool (Phase05 `app/mcp/tools/update_task.py`). -/
def update_task (s : Store) (now : Nat) (user_id : String) (task_id : Int)
    (title : Option String := none) (description : Option String := none)
    (priority : Option String := none) (tags : Option (List String) := none)
    (due_date : Option Int := none) (recurrence : Option String := none)
    (recurrence_interval : Option Int := none) : Except ToolError (Store × Task) :=
  if user_id == "" then .error (.valueError "user_id must be a non-empty string")
  else if task_id ≤ 0 then .error (.valueError "task_id must be a positive integer")
  else match updateValidateFields title description priority tags due_date recurrence recurrence_interval with
    | .error e => .error e
    | .ok v =>
      match s.tasks.find? (fun u => u.id == task_id && u.user_id == user_id) with
      | none => .error (.valueError (updateNotFoundMsg task_id user_id))
      | some t =>
        let t2 := applyUpdate t v now
        .ok ({ tasks := s.tasks.map (fun u => if u.id == task_id && u.user_id == user_id then t2 else u),
               nextId := s.nextId }, t2)

/-! ### Orchestrator model (Phase03 `app/agent/runner.py`, Phase05 `app/agent.py`)

The LLM collaborator is modelled as a script: one reply per iteration
index; an `.error` entry models an OpenAI API failure (timeout, rate
limit, ...), which the Phase03 runner re-raises. -/

/-- An argument dictionary parsed from a tool call, as an ordered Python dict. -/
abbrev Args := List (String × String)

/-- Python dict assignment `m[k] = v`: replaces the value in place when
the key is present, appends the pair otherwise. -/
def setKey {α : Type} (m : List (String × α)) (k : String) (v : α) : List (String × α) :=
  if m.any (fun p => p.1 == k) then m.map (fun p => if p.1 == k then (k, v) else p)
  else m ++ [(k, v)]

/-- Generic success test for `Except`. -/
def exOk {ε α : Type} : Except ε α → Bool
  | .ok _ => true
  | .error _ => false

/-- One tool call requested by the model: call id, tool name, and the
outcome of parsing its JSON `arguments` string (`.error` models a
`json.JSONDecodeError`, carrying the message). -/
structure ToolCallReq where
  id : String
  name : String
  args : Except String Args
deriving DecidableEq, Repr

/-- One model reply: text content and the (possibly empty) tool-call list. -/
structure ModelMsg where
  content : Option String
  tool_calls : List ToolCallReq
deriving DecidableEq, Repr

/-- A tool implementation: dispatched arguments to either a serialized
result (`.ok`) or the message of a raised exception (`.error`). -/
abbrev ToolImpl := Args → Except String String

/-- The tool registry (`TOOL_FUNCTIONS` dict / MCP server): name to callable. -/
abbrev Registry := String → Option ToolImpl

/-- The content of a tool-result transcript entry. -/
inductive ToolResultContent where
  | success (payload : String)
  | failure (errMsg : String)
deriving DecidableEq, Repr

/-- A tool-result transcript entry, keyed by the model's call id. -/
structure ToolResultEntry where
  tool_call_id : String
  content : ToolResultContent
deriving DecidableEq, Repr

/-- A dispatched call: tool name and the arguments the callable received. -/
structure Dispatch where
  name : String
  args : Args
deriving DecidableEq, Repr

/-- The result dict of Phase03 `run_agent`. -/
structure AgentResult where
  response : String
  tool_calls : List String
  success : Bool
  error : Option String
deriving DecidableEq, Repr

/-- A run result plus instrumentation: the dispatches the tool callables
actually received, and the tool-result transcript entries produced. -/
structure RunOutput where
  result : AgentResult
  dispatches : List Dispatch
  entries : List ToolResultEntry
deriving DecidableEq, Repr

/-- Phase03 runner, handling of one requested tool call (lines 135-182):
parse the arguments, look the tool up, inject the authenticated
`user_id`, execute, and convert every failure into a `success:false`
tool-result entry.  Also returns the dispatch made, if any. -/
def processToolCall (tools : Registry) (uid : String) (tc : ToolCallReq) :
    ToolResultEntry × Option Dispatch :=
  match tc.args with
  | .error e => (⟨tc.id, .failure ("Failed to parse tool arguments: " ++ e)⟩, none)
  | .ok args =>
    match tools tc.name with
    | none => (⟨tc.id, .failure ("Unknown tool: " ++ tc.name)⟩, none)
    | some f =>
      let args := setKey args "user_id" uid
      match f args with
      | .ok payload => (⟨tc.id, .success payload⟩, some ⟨tc.name, args⟩)
      | .error e => (⟨tc.id, .failure ("Tool execution failed: " ++ e)⟩, some ⟨tc.name, args⟩)

/-- The canned reply returned when the iteration budget is exhausted
(runner.py line 187; apostrophe in the source text elided). -/
def maxIterationsReply : String :=
  "I apologize, but I was not able to complete your request. Please try rephrasing or breaking it into smaller steps."

/-- Phase03 `run_agent` loop from iteration index `i` with `fuel`
remaining iterations (`while iterations < max_iterations`).  An `.error`
script entry (OpenAI API failure) is re-raised. -/
def runAgentFrom (tools : Registry) (uid : String) (script : Nat → Except String ModelMsg) :
    Nat → Nat → List String → List Dispatch → List ToolResultEntry →
    Except String RunOutput
  | _, 0, names, ds, es =>
    .ok ⟨⟨maxIterationsReply, names, false, some "Maximum iterations reached"⟩, ds, es⟩
  | i, fuel + 1, names, ds, es =>
    match script i with
    | .error e => .error e
    | .ok msg =>
      if msg.tool_calls.isEmpty then
        .ok ⟨⟨msg.content.getD "", names, true, none⟩, ds, es⟩
      else
        let step := msg.tool_calls.map (processToolCall tools uid)
        runAgentFrom tools uid script (i + 1) fuel
          (names ++ msg.tool_calls.map (fun tc => tc.name))
          (ds ++ step.filterMap (fun p => p.2))
          (es ++ step.map (fun p => p.1))

/-- Phase03 `run_agent` (`app/agent/runner.py`), instrumented. -/
def run_agent (tools : Registry) (uid : String) (script : Nat → Except String ModelMsg)
    (maxIter : Nat := 5) : Except String RunOutput :=
  runAgentFrom tools uid script 0 maxIter [] [] []

/-- Phase05 agent, fallback reply when the model returns no content. -/
def p5NoContentReply : String := "I am here to help with your tasks!"

/-- Phase05 agent, reply on iteration exhaustion. -/
def p5MaxIterReply : String :=
  "I have processed your request, but please let me know if you need anything else!"

/-- Phase05 agent, processing of the tool calls of one turn
(`app/agent.py` lines 236-257): no per-call containment — the first
parse failure, unknown tool (a `KeyError` from the MCP server) or tool
exception propagates.  On success the injected arguments are recorded in
the `tool_calls_summary` dict. -/
def p5ProcessCalls (tools : Registry) (uid : String) :
    List ToolCallReq → List (String × Args) → Except String (List (String × Args))
  | [], summary => .ok summary
  | tc :: rest, summary =>
    match tc.args with
    | .error e => .error e
    | .ok args =>
      match tools tc.name with
      | none => .error ("Tool " ++ tc.name ++ " not found")
      | some f =>
        let args := setKey args "user_id" uid
        match f args with
        | .error e => .error e
        | .ok _ => p5ProcessCalls tools uid rest (setKey summary tc.name args)

/-- Phase05 `run_agent` loop (`app/agent.py` lines 213-265): the whole
loop sits in one `try`, whose handler wraps any exception — API failure
or tool failure — as `Agent execution failed: ...` and re-raises it. -/
def runAgentP5From (tools : Registry) (uid : String) (script : Nat → Except String ModelMsg) :
    Nat → Nat → List (String × Args) → Except String (String × List (String × Args))
  | _, 0, summary => .ok (p5MaxIterReply, summary)
  | i, fuel + 1, summary =>
    match script i with
    | .error e => .error ("Agent execution failed: " ++ e)
    | .ok msg =>
      if msg.tool_calls.isEmpty then
        .ok ((msg.content.getD p5NoContentReply), summary)
      else
        match p5ProcessCalls tools uid msg.tool_calls summary with
        | .error e => .error ("Agent execution failed: " ++ e)
        | .ok summary2 => runAgentP5From tools uid script (i + 1) fuel summary2

/-- Phase05 `run_agent` (`app/agent.py`). -/
def run_agent_phase05 (tools : Registry) (uid : String)
    (script : Nat → Except String ModelMsg) (maxIter : Nat := 5) :
    Except String (String × List (String × Args)) :=
  runAgentP5From tools uid script 0 maxIter []

/-- Forge the `user_id` value `w` into one tool call's parsed arguments
(the model supplying its own `user_id`). -/
def forgeCall (w : String) (tc : ToolCallReq) : ToolCallReq :=
  { tc with args := tc.args.map (fun a => setKey a "user_id" w) }

/-- Forge `user_id := w` into every tool call of one model reply. -/
def forgeMsg (w : String) (m : ModelMsg) : ModelMsg :=
  { m with tool_calls := m.tool_calls.map (forgeCall w) }

/-- Forge `user_id := w` into every tool call of a whole script. -/
def forgeScript (w : String) (script : Nat → Except String ModelMsg) :
    Nat → Except String ModelMsg :=
  fun i => (script i).map (forgeMsg w)

/-- The tool names requested in turns `i, i+1, ..., i+fuel-1` of a script,
in order — the accumulation the runner performs in `tool_calls_made`. -/
def collectNames (msgs : Nat → ModelMsg) : Nat → Nat → List String
  | _, 0 => []
  | i, fuel + 1 =>
    (msgs i).tool_calls.map (fun tc => tc.name) ++ collectNames msgs (i + 1) fuel

/-! ### Chat endpoint model (Phase03 `app/routes/chat.py`) -/

/-- The observable persistence steps of one chat turn. -/
inductive ChatEvent where
  | ensureUser
  | resolveConversation
  | appendUserMessage
  | loadHistory
  | invokeAgent
  | appendAssistantMessage
  | touchConversation
deriving DecidableEq, Repr

/-- Outcome of the `run_agent` call as seen by the endpoint: a success
dict, a dict with `success=false` (turned into a 500), or a raised
exception (also turned into a 500). -/
inductive AgentOutcome where
  | ok (response : String) (toolCalls : List String)
  | failed (err : String)
  | raised (err : String)
deriving DecidableEq, Repr

/-- Result of one chat turn: trace of persistence events plus either the
response text or an HTTP error status. -/
structure ChatOutcome where
  trace : List ChatEvent
  result : Except Nat String
deriving DecidableEq, Repr

/-- `chat_endpoint` (Phase03 `app/routes/chat.py` lines 154-293): the
user message is committed before `run_agent`; the assistant message and
the `updated_at` bump are committed together after a successful return. -/
def chat_endpoint (userMatches resolveOk : Bool) (agent : AgentOutcome) : ChatOutcome :=
  if !userMatches then ⟨[], .error 403⟩
  else if !resolveOk then ⟨[.ensureUser, .resolveConversation], .error 404⟩
  else
    let pre : List ChatEvent :=
      [.ensureUser, .resolveConversation, .appendUserMessage, .loadHistory, .invokeAgent]
    match agent with
    | .ok resp _ => ⟨pre ++ [.appendAssistantMessage, .touchConversation], .ok resp⟩
    | .failed _ => ⟨pre, .error 500⟩
    | .raised _ => ⟨pre, .error 500⟩

/-! ### Concrete instances used by witnesses and counterexamples -/

/-- A store holding one task owned by alice. -/
def aliceTask : Task := ⟨1, "alice", "buy milk", none, false, 0, 0, none, none, none, none, none, none⟩

/-- The store containing only `aliceTask`. -/
def aliceStore : Store := ⟨[aliceTask], 2⟩

/-- A weekly recurring task with a due date. -/
def weeklyTask : Task := ⟨1, "u1", "report", none, false, 5, 5, none, none, some 100, some "weekly", none, none⟩

/-- The store containing only `weeklyTask`. -/
def weeklyStore : Store := ⟨[weeklyTask], 2⟩

/-- A 201-character title. -/
def longTitle201 : String := String.mk (List.replicate 201 'a')

/-- The row `add_task` creates for a whitespace-padded owner id. -/
def paddedOwnerTask : Task := ⟨1, " a ", "milk", none, false, 0, 0, none, none, none, none, none, none⟩

/-- The store after creating `paddedOwnerTask`. -/
def paddedOwnerStore : Store := ⟨[paddedOwnerTask], 2⟩

/-- The row created by `add_task store0 0 "u1" "milk"`. -/
def milkTask : Task := ⟨1, "u1", "milk", none, false, 0, 0, none, none, none, none, none, none⟩

/-- A registry whose only tool always raises the `complete_task`
not-found exception. -/
def failingRegistry : Registry := fun n =>
  if n == "complete_task" then
    some (fun _ => .error "Task with id 999 not found or you do not have permission to access it")
  else none

/-- A script whose first turn calls the failing tool, then finishes. -/
def failingScript : Nat → Except String ModelMsg := fun i =>
  if i == 0 then .ok ⟨none, [⟨"call-1", "complete_task", .ok [("task_id", "999")]⟩]⟩
  else .ok ⟨some "done", []⟩

/-- A registry whose only tool echoes its received arguments. -/
def echoRegistry : Registry := fun n =>
  if n == "add_task" then
    some (fun a => .ok (String.intercalate "," (a.map (fun p => p.1 ++ "=" ++ p.2))))
  else none

/-- A script whose first turn calls `add_task` with a forged user id. -/
def forgedScript : Nat → Except String ModelMsg := fun i =>
  if i == 0 then .ok ⟨none, [⟨"c1", "add_task", .ok [("title", "milk"), ("user_id", "forged")]⟩]⟩
  else .ok ⟨some "done", []⟩

/-- A script requesting one tool call on every turn. -/
def loopingScript : Nat → Except String ModelMsg := fun _ =>
  .ok ⟨none, [⟨"c", "list_tasks", .ok []⟩]⟩

/-- The model replies of `loopingScript`. -/
def loopingMsgs : Nat → ModelMsg := fun _ => ⟨none, [⟨"c", "list_tasks", .ok []⟩]⟩

/-- Agrees with `loopingScript` on the first three turns, then differs. -/
def loopingScriptAlt : Nat → Except String ModelMsg := fun i =>
  if i < 3 then .ok ⟨none, [⟨"c", "list_tasks", .ok []⟩]⟩ else .ok ⟨some "ignored", []⟩

/-! ## Helper lemmas -/

/-- Two rows of a primary-key-unique table with the same id are equal. -/
theorem mem_eq_of_id_eq {l : List Task} (hnd : (l.map (fun t => t.id)).Nodup)
    {u T : Task} (hu : u ∈ l) (hT : T ∈ l) (h : u.id = T.id) : u = T :=
  List.inj_on_of_nodup_map hnd hu hT h

theorem find?_owner_eq_some {l : List Task} (hnd : (l.map (fun t => t.id)).Nodup)
    {T : Task} (hT : T ∈ l) :
    l.find? (fun u => u.id == T.id && u.user_id == T.user_id) = some T := by
  induction l with
  | nil => cases hT
  | cons a rest ih =>
    have hnd2 := List.nodup_cons.mp hnd
    rcases List.mem_cons.mp hT with rfl | hmem
    · exact List.find?_cons_of_pos _ (by simp)
    · have hidne : (a.id == T.id) = false := by
        rw [beq_eq_false_iff_ne]
        intro hid
        apply hnd2.1
        show a.id ∈ List.map (fun t => t.id) rest
        rw [hid]
        exact List.mem_map_of_mem (fun t => t.id) hmem
      rw [List.find?_cons]
      simp only [hidne, Bool.false_and]
      exact ih hnd2.2 hmem

theorem find?_none_of_cross_owner {l : List Task} (hnd : (l.map (fun t => t.id)).Nodup)
    {T : Task} (hT : T ∈ l) {C : String} (hC : T.user_id ≠ C) :
    l.find? (fun u => u.id == T.id && u.user_id == C) = none := by
  rw [List.find?_eq_none]
  intro u hu
  simp only [Bool.and_eq_true, beq_iff_eq, not_and]
  intro hid husr
  exact hC ((mem_eq_of_id_eq hnd hu hT hid) ▸ husr)

theorem find?_none_of_absent {l : List Task} {j : Int} (h : ∀ u ∈ l, u.id ≠ j) (C : String) :
    l.find? (fun u => u.id == j && u.user_id == C) = none := by
  rw [List.find?_eq_none]
  intro u hu
  simp [h u hu]

theorem replace_map_single {l : List Task} (hnd : (l.map (fun t => t.id)).Nodup)
    {T : Task} (hT : T ∈ l) (x : Task) :
    l.map (fun u => if u.id == T.id && u.user_id == T.user_id then x else u)
      = l.map (fun u => if u.id == T.id then x else u) := by
  apply List.map_congr_left
  intro u hu
  by_cases hid : u.id = T.id
  · have : u = T := mem_eq_of_id_eq hnd hu hT hid
    subst this
    simp
  · simp [hid]

theorem taskMsg_ne_validationMsg (r : String) :
    ("Task with id " ++ r) ≠ "task_id must be a positive integer" := by
  intro h
  have h2 : ("Task with id " ++ r).data = ("task_id must be a positive integer").data := by
    rw [h]
  rw [String.data_append] at h2
  have h3 := congrArg List.head? h2
  rw [List.head?_append] at h3
  have e1 : "Task with id ".data.head? = some 'T' := rfl
  have e2 : "task_id must be a positive integer".data.head? = some 't' := rfl
  rw [e1, e2] at h3
  simp only [Option.or] at h3
  exact absurd (Option.some.inj h3) (by decide)

theorem add_task_ok_shape {s : Store} {now : Nat} {uid t : String}
    {dsc pr : Option String} {tg : Option (List String)} {dd : Option Int}
    {rc : Option String} {ri : Option Int} {s2 : Store} {tk : Task}
    (h : add_task s now uid t dsc pr tg dd rc ri = .ok (s2, tk)) :
    s2.tasks = s.tasks ++ [tk] ∧ s2.nextId = s.nextId + 1 ∧ tk.id = s.nextId ∧
    tk.user_id = uid ∧ tk.title = pyStrip t ∧
    tk.description = addNormalizeDescription dsc ∧ tk.completed = false ∧
    tk.created_at = now := by
  unfold add_task at h
  split at h
  · exact absurd h (by simp)
  split at h
  · exact absurd h (by simp)
  cases hp : addValidatePriority pr with
  | error e => rw [hp] at h; simp [Bind.bind, Except.bind] at h
  | ok pv =>
    cases hr : addValidateRecurrence rc ri with
    | error e => rw [hp, hr] at h; simp [Bind.bind, Except.bind] at h
    | ok rv =>
      rw [hp, hr] at h
      simp only [Bind.bind, Except.bind, Except.ok.injEq, Prod.mk.injEq] at h
      obtain ⟨h1, h2⟩ := h
      subst h1
      subst h2
      refine ⟨rfl, rfl, rfl, rfl, rfl, rfl, rfl, rfl⟩

theorem updateValidateFields_ok {tf df pf : Option String} {tg : Option (List String)}
    {dd : Option Int} {rc : Option String} {ri : Option Int} {v : UpdFields}
    (h : updateValidateFields tf df pf tg dd rc ri = .ok v) :
    v.tags = tg ∧ v.due_date = dd ∧ v.recurrence_interval = ri ∧
    v.description = updNormalizeDescription df ∧
    (tf = none → v.title = none) ∧ (pf = none → v.priority = none) ∧
    (rc = none → v.recurrence = none) := by
  unfold updateValidateFields at h
  split at h
  · exact absurd h (by simp)
  cases ht : updValidateTitle tf with
  | error e => rw [ht] at h; simp [Bind.bind, Except.bind] at h
  | ok tv =>
    cases hp : updValidatePriority pf with
    | error e => rw [ht, hp] at h; simp [Bind.bind, Except.bind] at h
    | ok pv =>
      cases hr : updValidateRecurrence rc ri with
      | error e => rw [ht, hp, hr] at h; simp [Bind.bind, Except.bind] at h
      | ok rv =>
        rw [ht, hp, hr] at h
        simp only [Bind.bind, Except.bind, Except.ok.injEq] at h
        subst h
        refine ⟨rfl, rfl, rfl, rfl, ?_, ?_, ?_⟩
        · intro hh; subst hh
          simp [updValidateTitle] at ht
          simp [ht.symm]
        · intro hh; subst hh
          simp [updValidatePriority] at hp
          simp [hp.symm]
        · intro hh; subst hh
          simp [updValidateRecurrence] at hr
          simp [hr.symm]


theorem insertByCreated_perm (t : Task) (l : List Task) :
    List.Perm (insertByCreated t l) (t :: l) := by
  induction l with
  | nil => simp [insertByCreated]
  | cons u rest ih =>
    by_cases h : u.created_at ≤ t.created_at
    · simp [insertByCreated, h]
    · simp only [insertByCreated, if_neg h]
      exact (List.Perm.cons u ih).trans (List.Perm.swap t u rest)

theorem sortByCreatedDesc_perm (l : List Task) :
    List.Perm (sortByCreatedDesc l) l := by
  induction l with
  | nil => simp [sortByCreatedDesc]
  | cons t rest ih =>
    exact (insertByCreated_perm t (sortByCreatedDesc rest)).trans (List.Perm.cons t ih)

theorem setKey_present {α : Type} (m : List (String × α)) (k : String) (v : α) :
    ((setKey m k v).any (fun p => p.1 == k)) = true := by
  unfold setKey
  by_cases h : (m.any (fun p => p.1 == k)) = true
  · rw [if_pos h]
    rcases List.any_eq_true.mp h with ⟨p, hp, hpk⟩
    have hmem : (if p.1 == k then (k, v) else p)
        ∈ List.map (fun q => if q.1 == k then (k, v) else q) m :=
      List.mem_map_of_mem (fun q => if q.1 == k then (k, v) else q) hp
    rw [if_pos hpk] at hmem
    exact List.any_eq_true.mpr ⟨(k, v), hmem, by simp⟩
  · rw [if_neg h]
    exact List.any_eq_true.mpr ⟨(k, v), by simp, by simp⟩

theorem setKey_setKey {α : Type} (m : List (String × α)) (k : String) (v w : α) :
    setKey (setKey m k v) k w = setKey m k w := by
  by_cases h : (m.any (fun p => p.1 == k)) = true
  · have h2 := setKey_present m k v
    conv_lhs => rw [setKey, if_pos h2]
    rw [setKey, if_pos h]
    conv_rhs => rw [setKey, if_pos h]
    rw [List.map_map]
    apply List.map_congr_left
    intro p _
    by_cases hpk : p.1 = k
    · simp [hpk]
    · simp [hpk]
  · have h2 := setKey_present m k v
    conv_lhs => rw [setKey, if_pos h2]
    rw [setKey, if_neg h]
    conv_rhs => rw [setKey, if_neg h]
    rw [List.map_append]
    have hm : m.map (fun p => if p.1 == k then (k, w) else p) = m := by
      have hcong : ∀ p ∈ m, (if p.1 == k then (k, w) else p) = p := by
        intro p hp
        rw [if_neg]
        intro hpk
        exact h (List.any_eq_true.mpr ⟨p, hp, hpk⟩)
      rw [List.map_congr_left hcong]
      simp
    rw [hm]
    simp

theorem lookup_map_set {α : Type} (m : List (String × α)) (k : String) (v : α)
    (h : (m.any (fun p => p.1 == k)) = true) :
    (m.map (fun p => if p.1 == k then (k, v) else p)).lookup k = some v := by
  induction m with
  | nil => simp at h
  | cons p rest ih =>
    obtain ⟨p1, p2⟩ := p
    by_cases hpk : ((p1, p2).1 == k) = true
    · have hk : p1 = k := beq_iff_eq.mp hpk
      subst hk
      simp only [List.map_cons, if_pos hpk]
      simp [List.lookup]
    · have hp1 : ¬p1 = k := fun e => hpk (beq_iff_eq.mpr e)
      have hne : (k == p1) = false := beq_eq_false_iff_ne.mpr (fun e => hp1 e.symm)
      have hrest : (rest.any (fun p => p.1 == k)) = true := by
        rcases List.any_eq_true.mp h with ⟨q, hq, hqk⟩
        rcases List.mem_cons.mp hq with rfl | hq2
        · exact absurd hqk hpk
        · exact List.any_eq_true.mpr ⟨q, hq2, hqk⟩
      simp only [List.map_cons, if_neg hpk]
      simp only [List.lookup_cons, hne]
      exact ih hrest

theorem lookup_append_last {α : Type} (m : List (String × α)) (k : String) (v : α)
    (h : (m.any (fun p => p.1 == k)) = false) :
    (m ++ [(k, v)]).lookup k = some v := by
  induction m with
  | nil => simp [List.lookup]
  | cons p rest ih =>
    obtain ⟨p1, p2⟩ := p
    rw [List.any_cons, Bool.or_eq_false_iff] at h
    have hne : (k == p1) = false := by
      rw [beq_eq_false_iff_ne]
      intro e
      have h1 := h.1
      rw [beq_eq_false_iff_ne] at h1
      exact h1 e.symm
    rw [List.cons_append]
    simp only [List.lookup_cons, hne]
    exact ih h.2

theorem lookup_setKey {α : Type} (m : List (String × α)) (k : String) (v : α) :
    (setKey m k v).lookup k = some v := by
  unfold setKey
  by_cases h : (m.any (fun p => p.1 == k)) = true
  · rw [if_pos h]
    exact lookup_map_set m k v h
  · rw [if_neg h]
    apply lookup_append_last
    cases hb : (m.any (fun p => p.1 == k)) with
    | false => rfl
    | true => exact absurd hb h

theorem mem_setKey {α : Type} {q : String × α} {m : List (String × α)} {k : String} {v : α}
    (h : q ∈ setKey m k v) : q ∈ m ∨ q = (k, v) := by
  unfold setKey at h
  by_cases hany : (m.any (fun p => p.1 == k)) = true
  · rw [if_pos hany] at h
    rcases List.mem_map.mp h with ⟨p, hp, hpq⟩
    by_cases hpk : (p.1 == k) = true
    · right
      rw [if_pos hpk] at hpq
      exact hpq.symm
    · left
      rw [if_neg hpk] at hpq
      exact hpq ▸ hp
  · rw [if_neg hany] at h
    rcases List.mem_append.mp h with h1 | h2
    · exact Or.inl h1
    · right
      simpa using h2

theorem processToolCall_forge (tools : Registry) (uid w : String) (tc : ToolCallReq) :
    processToolCall tools uid (forgeCall w tc) = processToolCall tools uid tc := by
  obtain ⟨i, n, args⟩ := tc
  unfold forgeCall processToolCall
  cases args with
  | error e => rfl
  | ok a =>
    simp only [Except.map]
    cases tools n with
    | none => rfl
    | some f => simp only [setKey_setKey]

theorem processToolCall_dispatch_userId (tools : Registry) (uid : String)
    (tc : ToolCallReq) (d : Dispatch)
    (h : (processToolCall tools uid tc).2 = some d) :
    d.args.lookup "user_id" = some uid := by
  obtain ⟨i, n, args⟩ := tc
  unfold processToolCall at h
  dsimp only at h
  cases args with
  | error e => simp at h
  | ok a =>
    dsimp only at h
    cases htool : tools n with
    | none => rw [htool] at h; simp at h
    | some f =>
      rw [htool] at h
      dsimp only at h
      cases hf : f (setKey a "user_id" uid) with
      | ok p =>
        rw [hf] at h
        dsimp only at h
        simp only [Option.some.injEq] at h
        rw [← h]
        exact lookup_setKey a "user_id" uid
      | error e =>
        rw [hf] at h
        dsimp only at h
        simp only [Option.some.injEq] at h
        rw [← h]
        exact lookup_setKey a "user_id" uid

theorem processToolCall_id (tools : Registry) (uid : String) (tc : ToolCallReq) :
    (processToolCall tools uid tc).1.tool_call_id = tc.id := by
  obtain ⟨i, n, args⟩ := tc
  unfold processToolCall
  cases args with
  | error e => rfl
  | ok a =>
    dsimp only
    cases tools n with
    | none => rfl
    | some f =>
      dsimp only
      cases f (setKey a "user_id" uid) with
      | error e => rfl
      | ok p => rfl


theorem runAgentFrom_forge (tools : Registry) (uid w : String)
    (script : Nat → Except String ModelMsg) :
    ∀ fuel i names ds es,
      runAgentFrom tools uid (forgeScript w script) i fuel names ds es
        = runAgentFrom tools uid script i fuel names ds es := by
  intro fuel
  induction fuel with
  | zero => intro i names ds es; rfl
  | succ n ih =>
    intro i names ds es
    unfold runAgentFrom
    cases hs : script i with
    | error e =>
      have hfs : forgeScript w script i = .error e := by
        simp [forgeScript, hs, Except.map]
      rw [hfs]
    | ok msg =>
      have hfs : forgeScript w script i = .ok (forgeMsg w msg) := by
        simp [forgeScript, hs, Except.map]
      rw [hfs]
      dsimp only
      have hie : (forgeMsg w msg).tool_calls.isEmpty = msg.tool_calls.isEmpty := by
        obtain ⟨c, tcs⟩ := msg
        cases tcs <;> rfl
      by_cases hemp : msg.tool_calls.isEmpty = true
      · rw [if_pos (hie.trans hemp), if_pos hemp]
        rfl
      · rw [if_neg (by rw [hie]; exact hemp), if_neg hemp]
        have hmapP : (forgeMsg w msg).tool_calls.map (processToolCall tools uid)
            = msg.tool_calls.map (processToolCall tools uid) := by
          unfold forgeMsg
          dsimp only
          rw [List.map_map]
          apply List.map_congr_left
          intro q _
          exact processToolCall_forge tools uid w q
        have hmapN : (forgeMsg w msg).tool_calls.map (fun c => c.name)
            = msg.tool_calls.map (fun c => c.name) := by
          unfold forgeMsg
          dsimp only
          rw [List.map_map]
          apply List.map_congr_left
          intro q _
          rfl
        rw [hmapP, hmapN]
        exact ih (i + 1) _ _ _


theorem runAgent_forge_dispatch (tools : Registry) (uid : String)
    (script : Nat → Except String ModelMsg) (maxIter : Nat) (w1 w2 : String) :
    run_agent tools uid (forgeScript w1 script) maxIter
      = run_agent tools uid (forgeScript w2 script) maxIter ∧
    (∀ o, run_agent tools uid script maxIter = .ok o →
      ∀ d ∈ o.dispatches, d.args.lookup "user_id" = some uid) := by
  constructor
  · unfold run_agent
    rw [runAgentFrom_forge tools uid w1 script, runAgentFrom_forge tools uid w2 script]
  · have main : ∀ fuel i names ds es o,
        (∀ d ∈ ds, d.args.lookup "user_id" = some uid) →
        runAgentFrom tools uid script i fuel names ds es = .ok o →
        ∀ d ∈ o.dispatches, d.args.lookup "user_id" = some uid := by
      intro fuel
      induction fuel with
      | zero =>
        intro i names ds es o hds h
        unfold runAgentFrom at h
        simp only [Except.ok.injEq] at h
        rw [← h]
        exact hds
      | succ n ih =>
        intro i names ds es o hds h
        unfold runAgentFrom at h
        cases hs : script i with
        | error e => rw [hs] at h; exact absurd h (by simp)
        | ok msg =>
          rw [hs] at h
          dsimp only at h
          by_cases hemp : msg.tool_calls.isEmpty = true
          · rw [if_pos hemp] at h
            simp only [Except.ok.injEq] at h
            rw [← h]
            exact hds
          · rw [if_neg hemp] at h
            refine ih (i + 1) _ _ _ o ?_ h
            intro d hd
            rcases List.mem_append.mp hd with hd1 | hd2
            · exact hds d hd1
            · rcases List.mem_filterMap.mp hd2 with ⟨pair, hpair, hp2⟩
              rcases List.mem_map.mp hpair with ⟨tc, _, htc⟩
              exact processToolCall_dispatch_userId tools uid tc d (htc ▸ hp2)
    intro o h
    exact main maxIter 0 [] [] [] o (by intro d hd; cases hd) h

theorem p5ProcessCalls_forge (tools : Registry) (uid w : String) :
    ∀ (tcs : List ToolCallReq) (summary : List (String × Args)),
      p5ProcessCalls tools uid (tcs.map (forgeCall w)) summary
        = p5ProcessCalls tools uid tcs summary := by
  intro tcs
  induction tcs with
  | nil => intro summary; rfl
  | cons tc rest ih =>
    intro summary
    obtain ⟨i, n, args⟩ := tc
    rw [List.map_cons]
    unfold p5ProcessCalls forgeCall
    cases args with
    | error e => rfl
    | ok a =>
      dsimp only [Except.map]
      cases tools n with
      | none => rfl
      | some f =>
        dsimp only
        rw [setKey_setKey]
        cases f (setKey a "user_id" uid) with
        | error e => rfl
        | ok p => exact ih _

theorem p5ProcessCalls_userId (tools : Registry) (uid : String) :
    ∀ (tcs : List ToolCallReq) (summary summary2 : List (String × Args)),
      (∀ p ∈ summary, p.2.lookup "user_id" = some uid) →
      p5ProcessCalls tools uid tcs summary = .ok summary2 →
      ∀ p ∈ summary2, p.2.lookup "user_id" = some uid := by
  intro tcs
  induction tcs with
  | nil =>
    intro summary summary2 hs h
    unfold p5ProcessCalls at h
    simp only [Except.ok.injEq] at h
    rw [← h]
    exact hs
  | cons tc rest ih =>
    intro summary summary2 hs h
    obtain ⟨i, n, args⟩ := tc
    unfold p5ProcessCalls at h
    dsimp only at h
    cases args with
    | error e => simp at h
    | ok a =>
      dsimp only at h
      cases htool : tools n with
      | none => rw [htool] at h; simp at h
      | some f =>
        rw [htool] at h
        dsimp only at h
        cases hf : f (setKey a "user_id" uid) with
        | error e => rw [hf] at h; simp at h
        | ok p =>
          rw [hf] at h
          dsimp only at h
          refine ih _ _ ?_ h
          intro q hq
          rcases mem_setKey hq with hq1 | hq2
          · exact hs q hq1
          · rw [hq2]
            exact lookup_setKey a "user_id" uid

theorem runAgentP5From_forge (tools : Registry) (uid w : String)
    (script : Nat → Except String ModelMsg) :
    ∀ fuel i summary,
      runAgentP5From tools uid (forgeScript w script) i fuel summary
        = runAgentP5From tools uid script i fuel summary := by
  intro fuel
  induction fuel with
  | zero => intro i summary; rfl
  | succ n ih =>
    intro i summary
    unfold runAgentP5From
    cases hs : script i with
    | error e =>
      have hfs : forgeScript w script i = .error e := by
        simp [forgeScript, hs, Except.map]
      rw [hfs]
    | ok msg =>
      have hfs : forgeScript w script i = .ok (forgeMsg w msg) := by
        simp [forgeScript, hs, Except.map]
      rw [hfs]
      dsimp only
      have hie : (forgeMsg w msg).tool_calls.isEmpty = msg.tool_calls.isEmpty := by
        obtain ⟨c, tcs⟩ := msg
        cases tcs <;> rfl
      by_cases hemp : msg.tool_calls.isEmpty = true
      · rw [if_pos (hie.trans hemp), if_pos hemp]
        rfl
      · rw [if_neg (by rw [hie]; exact hemp), if_neg hemp]
        have hpc : p5ProcessCalls tools uid (forgeMsg w msg).tool_calls summary
            = p5ProcessCalls tools uid msg.tool_calls summary :=
          p5ProcessCalls_forge tools uid w msg.tool_calls summary
        rw [hpc]
        cases p5ProcessCalls tools uid msg.tool_calls summary with
        | error e => rfl
        | ok s2 => exact ih (i + 1) s2

theorem runAgentP5From_userId (tools : Registry) (uid : String)
    (script : Nat → Except String ModelMsg) :
    ∀ fuel i summary res,
      (∀ p ∈ summary, p.2.lookup "user_id" = some uid) →
      runAgentP5From tools uid script i fuel summary = .ok res →
      ∀ p ∈ res.2, p.2.lookup "user_id" = some uid := by
  intro fuel
  induction fuel with
  | zero =>
    intro i summary res hs h
    unfold runAgentP5From at h
    simp only [Except.ok.injEq] at h
    rw [← h]
    exact hs
  | succ n ih =>
    intro i summary res hs h
    unfold runAgentP5From at h
    cases hscript : script i with
    | error e => rw [hscript] at h; simp at h
    | ok msg =>
      rw [hscript] at h
      dsimp only at h
      by_cases hemp : msg.tool_calls.isEmpty = true
      · rw [if_pos hemp] at h
        simp only [Except.ok.injEq] at h
        rw [← h]
        exact hs
      · rw [if_neg hemp] at h
        cases hpc : p5ProcessCalls tools uid msg.tool_calls summary with
        | error e => rw [hpc] at h; simp at h
        | ok s2 =>
          rw [hpc] at h
          exact ih (i + 1) s2 res (p5ProcessCalls_userId tools uid _ _ _ hs hpc) h

theorem runAgentFrom_congr (tools : Registry) (uid : String)
    (s1 s2 : Nat → Except String ModelMsg) :
    ∀ fuel i names ds es, (∀ j, j < fuel → s1 (i + j) = s2 (i + j)) →
      runAgentFrom tools uid s1 i fuel names ds es
        = runAgentFrom tools uid s2 i fuel names ds es := by
  intro fuel
  induction fuel with
  | zero => intro i names ds es _; rfl
  | succ n ih =>
    intro i names ds es h
    have h0 : s1 i = s2 i := by
      have := h 0 (Nat.succ_pos n)
      simpa using this
    unfold runAgentFrom
    rw [h0]
    cases s2 i with
    | error e => rfl
    | ok msg =>
      dsimp only
      have hshift : ∀ j, j < n → s1 (i + 1 + j) = s2 (i + 1 + j) := by
        intro j hj
        have := h (j + 1) (by omega)
        rw [show i + (j + 1) = i + 1 + j by omega] at this
        exact this
      by_cases hemp : msg.tool_calls.isEmpty = true
      · rw [if_pos hemp, if_pos hemp]
      · rw [if_neg hemp, if_neg hemp]
        exact ih (i + 1) _ _ _ hshift

theorem runAgentFrom_exhaust (tools : Registry) (uid : String)
    (script : Nat → Except String ModelMsg) (msgs : Nat → ModelMsg) :
    ∀ fuel i names ds es,
      (∀ j, j < fuel → script (i + j) = .ok (msgs (i + j)) ∧ (msgs (i + j)).tool_calls ≠ []) →
      ∃ o, runAgentFrom tools uid script i fuel names ds es = .ok o ∧
        o.result.response = maxIterationsReply ∧
        o.result.success = false ∧
        o.result.error = some "Maximum iterations reached" ∧
        o.result.tool_calls = names ++ collectNames msgs i fuel := by
  intro fuel
  induction fuel with
  | zero =>
    intro i names ds es _
    exact ⟨_, rfl, rfl, rfl, rfl, by simp [collectNames]⟩
  | succ n ih =>
    intro i names ds es h
    have h0 := h 0 (Nat.succ_pos n)
    simp only [Nat.add_zero] at h0
    unfold runAgentFrom
    rw [h0.1]
    dsimp only
    have hemp : ¬((msgs i).tool_calls.isEmpty = true) := by
      intro hE
      apply h0.2
      cases hmt : (msgs i).tool_calls with
      | nil => rfl
      | cons x l => rw [hmt] at hE; simp at hE
    rw [if_neg hemp]
    obtain ⟨o, ho, h1, h2, h3, h4⟩ := ih (i + 1)
      (names ++ (msgs i).tool_calls.map (fun tc => tc.name)) _ _
      (fun j hj => by
        have := h (j + 1) (by omega)
        rw [show i + (j + 1) = i + 1 + j by omega] at this
        exact this)
    refine ⟨o, ho, h1, h2, h3, ?_⟩
    rw [h4, List.append_assoc]
    rfl


theorem runAgentFrom_total (tools : Registry) (uid : String)
    (script : Nat → Except String ModelMsg)
    (hok : ∀ j, ∃ m, script j = .ok m) :
    ∀ fuel i names ds es, ∃ o,
      runAgentFrom tools uid script i fuel names ds es = .ok o := by
  intro fuel
  induction fuel with
  | zero => intro i names ds es; exact ⟨_, rfl⟩
  | succ n ih =>
    intro i names ds es
    obtain ⟨m, hm⟩ := hok i
    unfold runAgentFrom
    rw [hm]
    dsimp only
    by_cases hemp : m.tool_calls.isEmpty = true
    · rw [if_pos hemp]
      exact ⟨_, rfl⟩
    · rw [if_neg hemp]
      exact ih (i + 1) _ _ _

/-! ## Claim theorems -/

/-- Claim C1: for every stored task T and caller C with C different from the owner of T, `complete_task`, `delete_task` and `update_task` invoked by C on the id of T fail with exactly the not-found error they produce for an id that exists nowhere in the store; no success, no distinct forbidden signal, and (as the error branch returns no store) no mutation. -/
theorem c1_cross_owner_not_found
    (s : Store) (now : Nat) (C : String) (T : Task) (j : Int)
    (tf df pf : Option String) (tg : Option (List String)) (dd : Option Int)
    (rc : Option String) (ri : Option Int) (v : UpdFields)
    (hwf : s.WF) (hT : T ∈ s.tasks) (hown : T.user_id ≠ C) (hC : C ≠ "")
    (hj : 0 < j) (habs : ∀ u ∈ s.tasks, u.id ≠ j)
    (hv : updateValidateFields tf df pf tg dd rc ri = .ok v) :
    complete_task s now C T.id = .error (.genericError (completeNotFoundMsg T.id)) ∧
    complete_task s now C j = .error (.genericError (completeNotFoundMsg j)) ∧
    delete_task s C T.id = .error (.genericError (deleteNotFoundMsg T.id)) ∧
    delete_task s C j = .error (.genericError (deleteNotFoundMsg j)) ∧
    update_task s now C T.id tf df pf tg dd rc ri
      = .error (.valueError (updateNotFoundMsg T.id C)) ∧
    update_task s now C j tf df pf tg dd rc ri
      = .error (.valueError (updateNotFoundMsg j C)) := by
  have hCb : (C == "") = false := beq_eq_false_iff_ne.mpr hC
  have hTid : ¬(T.id ≤ 0) := not_le.mpr (hwf.2 T hT).1
  have hjn : ¬(j ≤ 0) := not_le.mpr hj
  have hf1 : s.tasks.find? (fun u => u.id == T.id && u.user_id == C) = none :=
    find?_none_of_cross_owner hwf.1 hT hown
  have hf2 : s.tasks.find? (fun u => u.id == j && u.user_id == C) = none :=
    find?_none_of_absent habs C
  refine ⟨?_, ?_, ?_, ?_, ?_, ?_⟩
  · simp [complete_task, hCb, hTid, hf1]
  · simp [complete_task, hCb, hjn, hf2]
  · simp [delete_task, hCb, hTid, hf1]
  · simp [delete_task, hCb, hjn, hf2]
  · simp [update_task, hCb, hTid, hv, hf1]
  · simp [update_task, hCb, hjn, hv, hf2]


/-- Witness for C1 at a concrete one-task store owned by alice, caller bob, absent id 5. -/
theorem c1_witness :
    complete_task aliceStore 0 "bob" 1 = .error (.genericError (completeNotFoundMsg 1)) ∧
    complete_task aliceStore 0 "bob" 5 = .error (.genericError (completeNotFoundMsg 5)) ∧
    delete_task aliceStore "bob" 1 = .error (.genericError (deleteNotFoundMsg 1)) ∧
    delete_task aliceStore "bob" 5 = .error (.genericError (deleteNotFoundMsg 5)) ∧
    update_task aliceStore 0 "bob" 1 (some "x")
      = .error (.valueError (updateNotFoundMsg 1 "bob")) ∧
    update_task aliceStore 0 "bob" 5 (some "x")
      = .error (.valueError (updateNotFoundMsg 5 "bob")) :=
  c1_cross_owner_not_found aliceStore 0 "bob" aliceTask 5
    (some "x") none none none none none none
    ⟨some "x", none, none, none, none, none, none⟩
    (And.intro (by decide) (by decide)) (by decide) (by decide) (by decide) (by decide)
    (by decide) (by decide)

/-- Claim C2: for every tool call, the parsed arguments have user_id overwritten with the orchestrator caller identity before dispatch (both Phase03 runner and Phase05 agent): two runs differing only in the user_id value the model puts in its tool-call arguments are indistinguishable, and every dispatched argument dict carries the caller identity under user_id. -/
theorem c2_user_id_injection (tools : Registry) (uid : String)
    (script : Nat → Except String ModelMsg) (maxIter : Nat) (w1 w2 : String) :
    run_agent tools uid (forgeScript w1 script) maxIter
      = run_agent tools uid (forgeScript w2 script) maxIter ∧
    (∀ o, run_agent tools uid script maxIter = .ok o →
      ∀ d ∈ o.dispatches, d.args.lookup "user_id" = some uid) ∧
    run_agent_phase05 tools uid (forgeScript w1 script) maxIter
      = run_agent_phase05 tools uid (forgeScript w2 script) maxIter ∧
    (∀ res, run_agent_phase05 tools uid script maxIter = .ok res →
      ∀ p ∈ res.2, p.2.lookup "user_id" = some uid) := by
  refine ⟨(runAgent_forge_dispatch tools uid script maxIter w1 w2).1,
          (runAgent_forge_dispatch tools uid script maxIter w1 w2).2, ?_, ?_⟩
  · unfold run_agent_phase05
    rw [runAgentP5From_forge tools uid w1 script, runAgentP5From_forge tools uid w2 script]
  · intro res h
    exact runAgentP5From_userId tools uid script maxIter 0 [] res
      (by intro p hp; cases hp) h


/-- Witness for C2 on a concrete script whose model call forges a user id. -/
theorem c2_witness :
    run_agent echoRegistry "u7" (forgeScript "w1" forgedScript) 5
      = run_agent echoRegistry "u7" (forgeScript "w2" forgedScript) 5 ∧
    List.lookup "user_id" [("title", "milk"), ("user_id", "u7")] = some "u7" ∧
    run_agent_phase05 echoRegistry "u7" (forgeScript "w1" forgedScript) 5
      = run_agent_phase05 echoRegistry "u7" (forgeScript "w2" forgedScript) 5 ∧
    List.lookup "user_id" [("title", "milk"), ("user_id", "u7")] = some "u7" := by
  refine ⟨(c2_user_id_injection echoRegistry "u7" forgedScript 5 "w1" "w2").1, ?_, 
          (c2_user_id_injection echoRegistry "u7" forgedScript 5 "w1" "w2").2.2.1, ?_⟩
  · exact (c2_user_id_injection echoRegistry "u7" forgedScript 5 "w1" "w2").2.1
      ⟨⟨"done", ["add_task"], true, none⟩,
       [⟨"add_task", [("title", "milk"), ("user_id", "u7")]⟩],
       [⟨"c1", .success "title=milk,user_id=u7"⟩]⟩
      (by decide)
      ⟨"add_task", [("title", "milk"), ("user_id", "u7")]⟩
      (by decide)
  · exact (c2_user_id_injection echoRegistry "u7" forgedScript 5 "w1" "w2").2.2.2
      ("done", [("add_task", [("title", "milk"), ("user_id", "u7")])])
      (by decide)
      ("add_task", [("title", "milk"), ("user_id", "u7")])
      (by decide)


/-- Claim C3 (amended): in the Phase03 runner every tool-call failure (argument-parse failure, unknown tool, raised exception) is converted into a tool-result entry of the failure shape and the loop continues, with no tool-level exception propagating (any script without API errors yields a normal result whatever the tools do, and each call yields exactly one entry keyed by its call id); in the Phase05 agent loop the same failures abort the run and propagate wrapped as Agent execution failed. -/
theorem c3_tool_error_containment (tools : Registry) (uid : String)
    (script : Nat → Except String ModelMsg) (maxIter : Nat) (msg0 : ModelMsg)
    (tc : ToolCallReq) (rest : List ToolCallReq) (f : ToolImpl) (e : String) (a : Args) :
    ((∀ j, ∃ m, script j = .ok m) → ∃ o, run_agent tools uid script maxIter = .ok o) ∧
    (tc.args = .error e →
      processToolCall tools uid tc
        = (⟨tc.id, .failure ("Failed to parse tool arguments: " ++ e)⟩, none)) ∧
    (tc.args = .ok a → tools tc.name = none →
      processToolCall tools uid tc
        = (⟨tc.id, .failure ("Unknown tool: " ++ tc.name)⟩, none)) ∧
    (tc.args = .ok a → tools tc.name = some f → f (setKey a "user_id" uid) = .error e →
      processToolCall tools uid tc
        = (⟨tc.id, .failure ("Tool execution failed: " ++ e)⟩,
           some ⟨tc.name, setKey a "user_id" uid⟩)) ∧
    ((msg0.tool_calls.map (processToolCall tools uid)).map (fun p => p.1.tool_call_id)
      = msg0.tool_calls.map (fun c => c.id)) ∧
    (script 0 = .ok msg0 → msg0.tool_calls = tc :: rest → 0 < maxIter →
      (tc.args = .error e →
        run_agent_phase05 tools uid script maxIter
          = .error ("Agent execution failed: " ++ e)) ∧
      (tc.args = .ok a → tools tc.name = none →
        run_agent_phase05 tools uid script maxIter
          = .error ("Agent execution failed: Tool " ++ tc.name ++ " not found")) ∧
      (tc.args = .ok a → tools tc.name = some f → f (setKey a "user_id" uid) = .error e →
        run_agent_phase05 tools uid script maxIter
          = .error ("Agent execution failed: " ++ e))) := by
  refine ⟨?_, ?_, ?_, ?_, ?_, ?_⟩
  · intro hok
    exact runAgentFrom_total tools uid script hok maxIter 0 [] [] []
  · intro h
    obtain ⟨i, n, args⟩ := tc
    simp only at h
    subst h
    rfl
  · intro h1 h2
    obtain ⟨i, n, args⟩ := tc
    simp only at h1 h2
    subst h1
    unfold processToolCall
    dsimp only
    rw [h2]
  · intro h1 h2 h3
    obtain ⟨i, n, args⟩ := tc
    simp only at h1 h2
    subst h1
    unfold processToolCall
    dsimp only
    rw [h2]
    dsimp only
    rw [h3]
  · rw [List.map_map]
    apply List.map_congr_left
    intro q _
    exact processToolCall_id tools uid q
  · intro hs0 htc hmax
    obtain ⟨mi, hmi⟩ : ∃ k, maxIter = k + 1 := ⟨maxIter - 1, by omega⟩
    subst hmi
    refine ⟨?_, ?_, ?_⟩
    · intro h
      obtain ⟨i, n, args⟩ := tc
      simp only at h
      subst h
      unfold run_agent_phase05 runAgentP5From
      rw [hs0]
      dsimp only
      rw [htc]
      rfl
    · intro h1 h2
      obtain ⟨i, n, args⟩ := tc
      simp only at h1 h2
      subst h1
      unfold run_agent_phase05 runAgentP5From
      rw [hs0]
      dsimp only
      rw [htc]
      unfold p5ProcessCalls
      dsimp only
      rw [h2]
      rfl
    · intro h1 h2 h3
      obtain ⟨i, n, args⟩ := tc
      simp only at h1 h2
      subst h1
      unfold run_agent_phase05 runAgentP5From
      rw [hs0]
      dsimp only
      rw [htc]
      unfold p5ProcessCalls
      dsimp only
      rw [h2]
      dsimp only
      rw [h3]
      rfl

/-- Witness for C3 on the concrete failing registry and script. -/
theorem c3_witness :
    (∃ o, run_agent failingRegistry "u1" failingScript 5 = .ok o) ∧
    processToolCall failingRegistry "u1" ⟨"c3", "add_task", .error "bad json"⟩
      = (⟨"c3", .failure ("Failed to parse tool arguments: " ++ "bad json")⟩, none) ∧
    processToolCall failingRegistry "u1" ⟨"c2", "nope", .ok []⟩
      = (⟨"c2", .failure ("Unknown tool: " ++ "nope")⟩, none) ∧
    processToolCall failingRegistry "u1" ⟨"call-1", "complete_task", .ok [("task_id", "999")]⟩
      = (⟨"call-1", .failure ("Tool execution failed: "
            ++ "Task with id 999 not found or you do not have permission to access it")⟩,
         some ⟨"complete_task", setKey [("task_id", "999")] "user_id" "u1"⟩) ∧
    run_agent_phase05 failingRegistry "u1" failingScript 5
      = .error ("Agent execution failed: "
          ++ "Task with id 999 not found or you do not have permission to access it") := by
  refine ⟨?_, ?_, ?_, ?_, ?_⟩
  · refine (c3_tool_error_containment failingRegistry "u1" failingScript 5
      ⟨none, []⟩ ⟨"x", "y", .ok []⟩ [] (fun _ => .ok "") "" []).1 ?_
    intro j
    by_cases hj : j = 0
    · subst hj
      exact ⟨_, rfl⟩
    · refine ⟨⟨some "done", []⟩, ?_⟩
      simp [failingScript, hj]
  · exact (c3_tool_error_containment failingRegistry "u1" failingScript 5
      ⟨none, []⟩ ⟨"c3", "add_task", .error "bad json"⟩ [] (fun _ => .ok "") "bad json" []).2.1 rfl
  · exact (c3_tool_error_containment failingRegistry "u1" failingScript 5
      ⟨none, []⟩ ⟨"c2", "nope", .ok []⟩ [] (fun _ => .ok "") "" []).2.2.1 rfl rfl
  · exact (c3_tool_error_containment failingRegistry "u1" failingScript 5
      ⟨none, []⟩ ⟨"call-1", "complete_task", .ok [("task_id", "999")]⟩ []
      (fun _ => .error "Task with id 999 not found or you do not have permission to access it")
      "Task with id 999 not found or you do not have permission to access it"
      [("task_id", "999")]).2.2.2.1 rfl rfl rfl
  · exact ((c3_tool_error_containment failingRegistry "u1" failingScript 5
      ⟨none, [⟨"call-1", "complete_task", .ok [("task_id", "999")]⟩]⟩
      ⟨"call-1", "complete_task", .ok [("task_id", "999")]⟩ []
      (fun _ => .error "Task with id 999 not found or you do not have permission to access it")
      "Task with id 999 not found or you do not have permission to access it"
      [("task_id", "999")]).2.2.2.2.2 rfl rfl (by decide)).2.2 rfl rfl rfl


/-- Counterexample for C3 as stated: in the Phase05 orchestrator a tool-level failure propagates out of the orchestration loop to the caller. -/
theorem c3_counterexample :
    run_agent_phase05 failingRegistry "u1" failingScript 5
      = .error "Agent execution failed: Task with id 999 not found or you do not have permission to access it" := by
  decide


/-- Claim C4: the Phase03 run depends only on the first max_iterations model replies (so at most max_iterations LLM round-trips happen regardless of how many tool calls each turn requests), and when every budgeted turn requests tool calls the run terminates normally with the canned apologetic reply, the accumulated tool-call names, success=false and the max-iterations status. -/
theorem c4_iteration_budget (tools : Registry) (uid : String) (maxIter : Nat)
    (s1 s2 script : Nat → Except String ModelMsg) (msgs : Nat → ModelMsg) :
    ((∀ j, j < maxIter → s1 j = s2 j) →
      run_agent tools uid s1 maxIter = run_agent tools uid s2 maxIter) ∧
    ((∀ j, j < maxIter → script j = .ok (msgs j) ∧ (msgs j).tool_calls ≠ []) →
      ∃ o, run_agent tools uid script maxIter = .ok o ∧
        o.result.response = maxIterationsReply ∧
        o.result.success = false ∧
        o.result.error = some "Maximum iterations reached" ∧
        o.result.tool_calls = collectNames msgs 0 maxIter) := by
  constructor
  · intro h
    unfold run_agent
    exact runAgentFrom_congr tools uid s1 s2 maxIter 0 [] [] []
      (fun j hj => by simpa using h j hj)
  · intro h
    unfold run_agent
    obtain ⟨o, ho, h1, h2, h3, h4⟩ := runAgentFrom_exhaust tools uid script msgs maxIter 0 [] [] []
      (fun j hj => by simpa using h j hj)
    refine ⟨o, ho, h1, h2, h3, ?_⟩
    rw [h4]
    simp


/-- Witness for C4 with budget 3 on a script that requests a tool call every turn. -/
theorem c4_witness :
    run_agent echoRegistry "u" loopingScript 3 = run_agent echoRegistry "u" loopingScriptAlt 3 ∧
    ∃ o, run_agent echoRegistry "u" loopingScript 3 = .ok o ∧
      o.result.response = maxIterationsReply ∧
      o.result.success = false ∧
      o.result.error = some "Maximum iterations reached" ∧
      o.result.tool_calls = collectNames loopingMsgs 0 3 := by
  constructor
  · exact (c4_iteration_budget echoRegistry "u" 3 loopingScript loopingScriptAlt
      loopingScript loopingMsgs).1
      (fun j hj => by simp [loopingScript, loopingScriptAlt, hj])
  · exact (c4_iteration_budget echoRegistry "u" 3 loopingScript loopingScriptAlt
      loopingScript loopingMsgs).2
      (fun j hj => ⟨rfl, by simp [loopingMsgs]⟩)

/-- Claim C5: completing an owned task that carries a recurrence rule marks it completed with updated_at refreshed and, in the same returned store, appends exactly one successor cloned from it (same owner/title/description/priority/tags/recurrence/interval, completed=false, parent_task_id = original id) whose due_date is the original advanced by +1 day (daily), +7 days (weekly), +30 days (monthly) or +interval days (custom); both effects land in one store or none. -/
theorem c5_complete_recurring (s : Store) (now : Nat) (uid r : String) (T : Task)
    (hwf : s.WF) (hT : T ∈ s.tasks) (hu : T.user_id = uid) (huid : uid ≠ "")
    (hr : T.recurrence = some r) (hrne : r ≠ "") :
    ∃ nt : Task,
      complete_task s now uid T.id
        = .ok ({ tasks := s.tasks.map (fun u =>
                   if u.id == T.id then { T with completed := true, updated_at := now } else u)
                   ++ [nt],
                 nextId := s.nextId + 1 },
               { T with completed := true, updated_at := now }, some nt) ∧
      nt.id = s.nextId ∧ nt.user_id = T.user_id ∧ nt.title = T.title ∧
      nt.description = T.description ∧ nt.completed = false ∧
      nt.priority = T.priority ∧ nt.tags = T.tags ∧
      nt.recurrence = T.recurrence ∧ nt.recurrence_interval = T.recurrence_interval ∧
      nt.parent_task_id = some T.id ∧ nt.created_at = now ∧ nt.updated_at = now ∧
      (r = "daily" → nt.due_date = T.due_date.map (fun d => d + 1)) ∧
      (r = "weekly" → nt.due_date = T.due_date.map (fun d => d + 7)) ∧
      (r = "monthly" → nt.due_date = T.due_date.map (fun d => d + 30)) ∧
      (∀ k : Int, r = "custom" → T.recurrence_interval = some k → k ≠ 0 →
        nt.due_date = T.due_date.map (fun d => d + k)) := by
  have huidb : (uid == "") = false := beq_eq_false_iff_ne.mpr huid
  have htid : ¬(T.id ≤ 0) := not_le.mpr (hwf.2 T hT).1
  have hfind : s.tasks.find? (fun u => u.id == T.id && u.user_id == uid) = some T := by
    rw [← hu]
    exact find?_owner_eq_some hwf.1 hT
  have htr : pyTruthyStr T.recurrence = true := by
    rw [hr]
    simp [pyTruthyStr, hrne]
  have hget : T.recurrence.getD "" = r := by rw [hr]; rfl
  refine ⟨{ id := s.nextId, user_id := T.user_id, title := T.title,
            description := T.description, completed := false,
            created_at := now, updated_at := now, priority := T.priority,
            tags := T.tags,
            due_date := (match T.due_date with
              | some d => advanceDue r d T.recurrence_interval
              | none => none),
            recurrence := T.recurrence, recurrence_interval := T.recurrence_interval,
            parent_task_id := some T.id },
    ?_, rfl, rfl, rfl, rfl, rfl, rfl, rfl, rfl, rfl, rfl, rfl, rfl, ?_, ?_, ?_, ?_⟩
  · simp [complete_task, huidb, htid, hfind, htr, hget]
    intro a ha
    by_cases hid : a.id = T.id
    · have hae : a = T := mem_eq_of_id_eq hwf.1 ha hT hid
      subst hae
      simp [hu]
    · simp [hid]
  · intro hh
    subst hh
    cases T.due_date <;> simp [advanceDue]
  · intro hh
    subst hh
    cases T.due_date <;> simp [advanceDue]
  · intro hh
    subst hh
    cases T.due_date <;> simp [advanceDue]
  · intro k hh hk hkne
    subst hh
    rw [hk]
    have : (k != 0) = true := bne_iff_ne.mpr hkne
    cases T.due_date <;> simp [advanceDue, this]

/-- Witness for C5 on a concrete weekly task due at day 100, completed at tick 7. -/
theorem c5_witness :
    ∃ nt : Task,
      complete_task weeklyStore 7 "u1" weeklyTask.id
        = .ok ({ tasks := weeklyStore.tasks.map (fun u =>
                   if u.id == weeklyTask.id then { weeklyTask with completed := true, updated_at := 7 } else u)
                   ++ [nt],
                 nextId := weeklyStore.nextId + 1 },
               { weeklyTask with completed := true, updated_at := 7 }, some nt) ∧
      nt.id = weeklyStore.nextId ∧ nt.user_id = weeklyTask.user_id ∧ nt.title = weeklyTask.title ∧
      nt.description = weeklyTask.description ∧ nt.completed = false ∧
      nt.priority = weeklyTask.priority ∧ nt.tags = weeklyTask.tags ∧
      nt.recurrence = weeklyTask.recurrence ∧ nt.recurrence_interval = weeklyTask.recurrence_interval ∧
      nt.parent_task_id = some weeklyTask.id ∧ nt.created_at = 7 ∧ nt.updated_at = 7 ∧
      ("weekly" = "daily" → nt.due_date = weeklyTask.due_date.map (fun d => d + 1)) ∧
      ("weekly" = "weekly" → nt.due_date = weeklyTask.due_date.map (fun d => d + 7)) ∧
      ("weekly" = "monthly" → nt.due_date = weeklyTask.due_date.map (fun d => d + 30)) ∧
      (∀ k : Int, "weekly" = "custom" → weeklyTask.recurrence_interval = some k → k ≠ 0 →
        nt.due_date = weeklyTask.due_date.map (fun d => d + k)) :=
  c5_complete_recurring weeklyStore 7 "u1" "weekly" weeklyTask
    (And.intro (by decide) (by decide)) (by decide) (by decide) (by decide) (by decide)
    (by decide)


/-- Claim C6 (amended): add_task fails with a ValueError when the title is empty after trimming and when recurrence is custom without a positive interval; on success exactly one row is appended and its completed flag is false; a title longer than 200 characters is NOT rejected - the tool performs no length check. -/
theorem c6_create_task_validation (s : Store) (now : Nat) (uid t : String)
    (dsc pr : Option String) (tg : Option (List String)) (dd : Option Int)
    (rc : Option String) (ri : Option Int) (pv : Option String) (k : Int)
    (s2 : Store) (tk : Task) :
    (pyStrip t = "" → uid ≠ "" →
      add_task s now uid t dsc pr tg dd rc ri
        = .error (.valueError "title cannot be empty")) ∧
    (uid ≠ "" → pyStrip t ≠ "" → addValidatePriority pr = .ok pv →
      (ri = none ∨ ri = some 0) →
      add_task s now uid t dsc pr tg dd (some "custom") ri
        = .error (.valueError "recurrence_interval is required when recurrence is custom")) ∧
    (uid ≠ "" → pyStrip t ≠ "" → addValidatePriority pr = .ok pv → ri = some k → k < 0 →
      add_task s now uid t dsc pr tg dd (some "custom") ri
        = .error (.valueError "recurrence_interval must be a positive integer")) ∧
    (add_task s now uid t dsc pr tg dd rc ri = .ok (s2, tk) →
      s2.tasks = s.tasks ++ [tk] ∧ tk.completed = false ∧ s2.nextId = s.nextId + 1) := by
  refine ⟨?_, ?_, ?_, ?_⟩
  · intro h1 h2
    have huidb : (uid == "") = false := beq_eq_false_iff_ne.mpr h2
    simp [add_task, huidb, h1]
  · intro h1 h2 hp hri
    have huidb : (uid == "") = false := beq_eq_false_iff_ne.mpr h1
    have htb : (pyStrip t == "") = false := beq_eq_false_iff_ne.mpr h2
    have hparse : parseEnum recurrenceValues "custom" = some "custom" := by decide
    have hrec : addValidateRecurrence (some "custom") ri
        = .error (.valueError "recurrence_interval is required when recurrence is custom") := by
      rcases hri with rfl | rfl <;>
        simp [addValidateRecurrence, hparse, pyTruthyInt]
    simp [add_task, huidb, htb, hp, hrec, Bind.bind, Except.bind]
  · intro h1 h2 hp hri hk
    subst hri
    have huidb : (uid == "") = false := beq_eq_false_iff_ne.mpr h1
    have htb : (pyStrip t == "") = false := beq_eq_false_iff_ne.mpr h2
    have hkne : (k != 0) = true := by simp; omega
    have hklt : k < 1 := by omega
    have hparse : parseEnum recurrenceValues "custom" = some "custom" := by decide
    have hrec : addValidateRecurrence (some "custom") (some k)
        = .error (.valueError "recurrence_interval must be a positive integer") := by
      simp [addValidateRecurrence, hparse, pyTruthyInt, hkne, hklt]
    simp [add_task, huidb, htb, hp, hrec, Bind.bind, Except.bind]
  · intro h
    obtain ⟨e1, _, _, _, _, _, e7, _⟩ := add_task_ok_shape h
    exact ⟨e1, e7, (add_task_ok_shape h).2.1⟩

/-- Witness for C6 at concrete inputs for each clause. -/
theorem c6_witness :
    add_task store0 0 "u1" "   " = .error (.valueError "title cannot be empty") ∧
    add_task store0 0 "u1" "x" none none none none (some "custom") none
      = .error (.valueError "recurrence_interval is required when recurrence is custom") ∧
    add_task store0 0 "u1" "x" none none none none (some "custom") (some (-2))
      = .error (.valueError "recurrence_interval must be a positive integer") ∧
    (({ tasks := [milkTask], nextId := 2 } : Store).tasks = store0.tasks ++ [milkTask] ∧
      milkTask.completed = false ∧
      ({ tasks := [milkTask], nextId := 2 } : Store).nextId = store0.nextId + 1) := by
  refine ⟨?_, ?_, ?_, ?_⟩
  · exact (c6_create_task_validation store0 0 "u1" "   " none none none none none none
      none 0 store0 milkTask).1 (by decide) (by decide)
  · exact (c6_create_task_validation store0 0 "u1" "x" none none none none none none
      none 0 store0 milkTask).2.1 (by decide) (by decide) (by decide) (Or.inl rfl)
  · exact (c6_create_task_validation store0 0 "u1" "x" none none none none none
      (some (-2)) none (-2) store0 milkTask).2.2.1 (by decide) (by decide) (by decide)
      rfl (by decide)
  · exact (c6_create_task_validation store0 0 "u1" "milk" none none none none none none
      none 0 ({ tasks := [milkTask], nextId := 2 } : Store) milkTask).2.2.2 (by decide)

/-- Counterexample for C6 as stated: a 201-character title passes add_task validation and the insert succeeds, not a ValidationError. -/
theorem c6_counterexample :
    longTitle201.length = 201 ∧
    exOk (add_task store0 0 "u1" longTitle201) = true := by
  constructor
  · decide
  · decide

/-- Claim C7: update_task fails with a ValueError when zero fields are supplied or a supplied title trims to empty; fails with the not-found ValueError when no task with the given id and owner exists; and on success only the supplied fields change - every unsupplied field keeps its previous value - while updated_at is refreshed and id/owner/completed/created_at never change. -/
theorem c7_update_task_contract
    (s : Store) (now : Nat) (uid et : String) (tid : Int) (T : Task)
    (tf df pf : Option String) (tg : Option (List String)) (dd : Option Int)
    (rc : Option String) (ri : Option Int) (v : UpdFields) :
    (uid ≠ "" → 0 < tid →
      update_task s now uid tid none none none none none none none
        = .error (.valueError "At least one field must be provided for update")) ∧
    (uid ≠ "" → 0 < tid → pyStrip et = "" →
      update_task s now uid tid (some et) df pf tg dd rc ri
        = .error (.valueError "title cannot be empty")) ∧
    (uid ≠ "" → 0 < tid →
      updateValidateFields tf df pf tg dd rc ri = .ok v →
      (∀ u ∈ s.tasks, u.id ≠ tid ∨ u.user_id ≠ uid) →
      update_task s now uid tid tf df pf tg dd rc ri
        = .error (.valueError (updateNotFoundMsg tid uid))) ∧
    (s.WF → T ∈ s.tasks → T.user_id = uid → uid ≠ "" →
      updateValidateFields tf df pf tg dd rc ri = .ok v →
      update_task s now uid T.id tf df pf tg dd rc ri
        = .ok ({ tasks := s.tasks.map (fun u => if u.id == T.id then applyUpdate T v now else u),
                 nextId := s.nextId }, applyUpdate T v now) ∧
      (tf = none → (applyUpdate T v now).title = T.title) ∧
      (df = none → (applyUpdate T v now).description = T.description) ∧
      (pf = none → (applyUpdate T v now).priority = T.priority) ∧
      (tg = none → (applyUpdate T v now).tags = T.tags) ∧
      (dd = none → (applyUpdate T v now).due_date = T.due_date) ∧
      (rc = none → (applyUpdate T v now).recurrence = T.recurrence) ∧
      (ri = none → (applyUpdate T v now).recurrence_interval = T.recurrence_interval) ∧
      (applyUpdate T v now).updated_at = now ∧
      (applyUpdate T v now).id = T.id ∧
      (applyUpdate T v now).user_id = T.user_id ∧
      (applyUpdate T v now).completed = T.completed ∧
      (applyUpdate T v now).created_at = T.created_at) := by
  refine ⟨?_, ?_, ?_, ?_⟩
  · intro h1 h2
    have huidb : (uid == "") = false := beq_eq_false_iff_ne.mpr h1
    have htid : ¬(tid ≤ 0) := not_le.mpr h2
    simp [update_task, huidb, htid, updateValidateFields]
  · intro h1 h2 h3
    have huidb : (uid == "") = false := beq_eq_false_iff_ne.mpr h1
    have htid : ¬(tid ≤ 0) := not_le.mpr h2
    have hvf : updateValidateFields (some et) df pf tg dd rc ri
        = .error (.valueError "title cannot be empty") := by
      simp [updateValidateFields, updValidateTitle, h3, Bind.bind, Except.bind]
    simp [update_task, huidb, htid, hvf]
  · intro h1 h2 hv habs
    have huidb : (uid == "") = false := beq_eq_false_iff_ne.mpr h1
    have htid : ¬(tid ≤ 0) := not_le.mpr h2
    have hfind : s.tasks.find? (fun u => u.id == tid && u.user_id == uid) = none := by
      rw [List.find?_eq_none]
      intro u hu
      simp only [Bool.and_eq_true, beq_iff_eq, not_and]
      intro hid husr
      rcases habs u hu with h | h
      · exact h hid
      · exact h husr
    simp [update_task, huidb, htid, hv, hfind]
  · intro hwf hT hu h1 hv
    have huidb : (uid == "") = false := beq_eq_false_iff_ne.mpr h1
    have htid : ¬(T.id ≤ 0) := not_le.mpr (hwf.2 T hT).1
    have hfind : s.tasks.find? (fun u => u.id == T.id && u.user_id == uid) = some T := by
      rw [← hu]
      exact find?_owner_eq_some hwf.1 hT
    obtain ⟨e1, e2, e3, e4, e5, e6, e7⟩ := updateValidateFields_ok hv
    refine ⟨?_, ?_, ?_, ?_, ?_, ?_, ?_, ?_, rfl, rfl, rfl, rfl, rfl⟩
    · simp [update_task, huidb, htid, hv, hfind]
      intro a ha
      by_cases hid : a.id = T.id
      · have hae : a = T := mem_eq_of_id_eq hwf.1 ha hT hid
        subst hae
        simp [hu]
      · simp [hid]
    · intro hh; simp [applyUpdate, e5 hh]
    · intro hh; subst hh; simp [applyUpdate, e4]; rfl
    · intro hh; simp [applyUpdate, e6 hh]
    · intro hh; subst hh; simp [applyUpdate, e1]
    · intro hh; subst hh; simp [applyUpdate, e2]
    · intro hh; simp [applyUpdate, e7 hh]
    · intro hh; subst hh; simp [applyUpdate, e3]

/-- Witness for C7 at concrete stores for each clause. -/
theorem c7_witness :
    update_task store0 0 "u1" 1
      = .error (.valueError "At least one field must be provided for update") ∧
    update_task store0 0 "u1" 1 (some "   ")
      = .error (.valueError "title cannot be empty") ∧
    update_task store0 0 "u1" 1 (some "x")
      = .error (.valueError (updateNotFoundMsg 1 "u1")) ∧
    update_task aliceStore 0 "alice" aliceTask.id (some "x")
      = .ok ({ tasks := aliceStore.tasks.map (fun u =>
                 if u.id == aliceTask.id
                 then applyUpdate aliceTask ⟨some "x", none, none, none, none, none, none⟩ 0
                 else u),
               nextId := aliceStore.nextId },
             applyUpdate aliceTask ⟨some "x", none, none, none, none, none, none⟩ 0) ∧
    (applyUpdate aliceTask ⟨some "x", none, none, none, none, none, none⟩ 0).description
      = aliceTask.description ∧
    (applyUpdate aliceTask ⟨some "x", none, none, none, none, none, none⟩ 0).updated_at = 0 := by
  refine ⟨?_, ?_, ?_, ?_, ?_, ?_⟩
  · exact (c7_update_task_contract store0 0 "u1" "" 1 aliceTask none none none none none none
      none ⟨none, none, none, none, none, none, none⟩).1 (by decide) (by decide)
  · exact (c7_update_task_contract store0 0 "u1" "   " 1 aliceTask none none none none none none
      none ⟨none, none, none, none, none, none, none⟩).2.1 (by decide) (by decide) (by decide)
  · exact (c7_update_task_contract store0 0 "u1" "" 1 aliceTask (some "x") none none none none none
      none ⟨some "x", none, none, none, none, none, none⟩).2.2.1 (by decide) (by decide)
      (by decide) (by intro u hu; cases hu)
  · exact ((c7_update_task_contract aliceStore 0 "alice" "" 1 aliceTask (some "x") none none none
      none none none ⟨some "x", none, none, none, none, none, none⟩).2.2.2
      (And.intro (by decide) (by decide)) (by decide) (by decide) (by decide) (by decide)).1
  · exact ((c7_update_task_contract aliceStore 0 "alice" "" 1 aliceTask (some "x") none none none
      none none none ⟨some "x", none, none, none, none, none, none⟩).2.2.2
      (And.intro (by decide) (by decide)) (by decide) (by decide) (by decide) (by decide)).2.2.1 rfl
  · exact ((c7_update_task_contract aliceStore 0 "alice" "" 1 aliceTask (some "x") none none none
      none none none ⟨some "x", none, none, none, none, none, none⟩).2.2.2
      (And.intro (by decide) (by decide)) (by decide) (by decide) (by decide) (by decide)).2.2.2.2.2.2.2.2.1

/-- Claim C8 (amended): for owners whose id equals its trimmed form, after a successful add_task a list_tasks(owner, all) on the resulting store contains exactly one task with the new id, and it is the created row with the stored (trimmed) title and normalised description. -/
theorem c8_create_then_list (s : Store) (now : Nat) (uid t : String)
    (dsc pr : Option String) (tg : Option (List String)) (dd : Option Int)
    (rc : Option String) (ri : Option Int) (s2 : Store) (tk : Task)
    (hwf : s.WF) (htrim : pyStrip uid = uid)
    (h : add_task s now uid t dsc pr tg dd rc ri = .ok (s2, tk)) :
    ∃ l, list_tasks s2 uid "all" = .ok l ∧
      l.filter (fun u => u.id == tk.id) = [tk] ∧
      tk.title = pyStrip t ∧ tk.description = addNormalizeDescription dsc := by
  obtain ⟨e1, e2, e3, e4, e5, e6, _, _⟩ := add_task_ok_shape h
  have huid : uid ≠ "" := by
    intro hh
    subst hh
    simp [add_task] at h
  have huidb : (pyStrip uid == "") = false := by
    rw [htrim]
    exact beq_eq_false_iff_ne.mpr huid
  refine ⟨sortByCreatedDesc (s2.tasks.filter (fun x => x.user_id == pyStrip uid)), ?_, ?_, e5, e6⟩
  · simp [list_tasks, huidb]
  · have hperm := (sortByCreatedDesc_perm
      (s2.tasks.filter (fun x => x.user_id == pyStrip uid))).filter (fun u => u.id == tk.id)
    have hval : (s2.tasks.filter (fun x => x.user_id == pyStrip uid)).filter
        (fun u => u.id == tk.id) = [tk] := by
      rw [e1, List.filter_append, List.filter_append]
      have hs : (s.tasks.filter (fun x => x.user_id == pyStrip uid)).filter
          (fun u => u.id == tk.id) = [] := by
        rw [List.filter_eq_nil_iff]
        intro u hu
        have hu2 : u ∈ s.tasks := List.mem_of_mem_filter hu
        have hlt := (hwf.2 u hu2).2
        rw [e3]
        simp only [beq_iff_eq]
        omega
      have htk : ([tk].filter (fun x => x.user_id == pyStrip uid)).filter
          (fun u => u.id == tk.id) = [tk] := by
        simp [e4, htrim]
      rw [hs, htk]
      rfl
    rw [hval] at hperm
    exact List.perm_singleton.mp hperm


/-- Witness for C8 creating a task for owner u1 in the empty store. -/
theorem c8_witness :
    ∃ l, list_tasks ({ tasks := [milkTask], nextId := 2 } : Store) "u1" "all" = .ok l ∧
      l.filter (fun u => u.id == milkTask.id) = [milkTask] ∧
      milkTask.title = pyStrip "milk" ∧
      milkTask.description = addNormalizeDescription none :=
  c8_create_then_list store0 0 "u1" "milk" none none none none none none
    ({ tasks := [milkTask], nextId := 2 } : Store) milkTask
    (And.intro (by decide) (by decide)) (by decide) (by decide)


/-- Counterexample for C8 as stated: for a whitespace-padded owner the creation succeeds but the subsequent listing for the same owner string is empty, because list_tasks trims the caller id while add_task stores it untrimmed. -/
theorem c8_counterexample :
    add_task store0 0 " a " "milk" = .ok (paddedOwnerStore, paddedOwnerTask) ∧
    list_tasks paddedOwnerStore " a " "all" = .ok [] :=
  ⟨by decide, by decide⟩

/-- Claim C9: in every chat turn, the user message is appended before the orchestrator is invoked, the assistant message is appended only after the orchestrator returns successfully, and updated_at is touched exactly as often as an assistant message is appended - at most once per turn, immediately at the append, never before the orchestrator runs. -/
theorem c9_chat_turn_ordering (um ro : Bool) (a : AgentOutcome) :
    ((chat_endpoint um ro a).trace.contains .invokeAgent = true →
      (chat_endpoint um ro a).trace.indexOf ChatEvent.appendUserMessage
        < (chat_endpoint um ro a).trace.indexOf ChatEvent.invokeAgent) ∧
    ((chat_endpoint um ro a).trace.contains .appendAssistantMessage = true →
      (chat_endpoint um ro a).trace.indexOf ChatEvent.invokeAgent
        < (chat_endpoint um ro a).trace.indexOf ChatEvent.appendAssistantMessage) ∧
    ((chat_endpoint um ro a).trace.count ChatEvent.touchConversation
      = (chat_endpoint um ro a).trace.count ChatEvent.appendAssistantMessage) ∧
    ((chat_endpoint um ro a).trace.count ChatEvent.touchConversation ≤ 1) ∧
    ((chat_endpoint um ro a).trace.contains .touchConversation = true →
      (chat_endpoint um ro a).trace.indexOf ChatEvent.touchConversation
        = (chat_endpoint um ro a).trace.indexOf ChatEvent.appendAssistantMessage + 1) ∧
    ((chat_endpoint um ro a).trace.contains .touchConversation = true →
      (chat_endpoint um ro a).trace.indexOf ChatEvent.invokeAgent
        < (chat_endpoint um ro a).trace.indexOf ChatEvent.touchConversation) ∧
    ((chat_endpoint um ro a).trace.contains .appendAssistantMessage = true →
      ∃ r tcs, a = .ok r tcs) ∧
    (um = true → ro = true → ∀ r tcs, a = .ok r tcs →
      (chat_endpoint um ro a).trace.contains .appendAssistantMessage = true) := by
  cases um with
  | false =>
    cases a with
    | ok r tcs =>
      rw [show (chat_endpoint false ro (AgentOutcome.ok r tcs)).trace
          = ([] : List ChatEvent) from rfl]
      exact ⟨by decide, by decide, by decide, by decide, by decide, by decide,
        fun _ => ⟨r, tcs, rfl⟩, fun h _ _ _ _ => by cases h⟩
    | failed e =>
      rw [show (chat_endpoint false ro (AgentOutcome.failed e)).trace
          = ([] : List ChatEvent) from rfl]
      exact ⟨by decide, by decide, by decide, by decide, by decide, by decide,
        fun h => absurd h (by decide), fun _ _ _ _ h => by cases h⟩
    | raised e =>
      rw [show (chat_endpoint false ro (AgentOutcome.raised e)).trace
          = ([] : List ChatEvent) from rfl]
      exact ⟨by decide, by decide, by decide, by decide, by decide, by decide,
        fun h => absurd h (by decide), fun _ _ _ _ h => by cases h⟩
  | true =>
    cases ro with
    | false =>
      cases a with
      | ok r tcs =>
        rw [show (chat_endpoint true false (AgentOutcome.ok r tcs)).trace
            = [ChatEvent.ensureUser, ChatEvent.resolveConversation] from rfl]
        exact ⟨by decide, by decide, by decide, by decide, by decide, by decide,
          fun _ => ⟨r, tcs, rfl⟩, fun _ h _ _ _ => by cases h⟩
      | failed e =>
        rw [show (chat_endpoint true false (AgentOutcome.failed e)).trace
            = [ChatEvent.ensureUser, ChatEvent.resolveConversation] from rfl]
        exact ⟨by decide, by decide, by decide, by decide, by decide, by decide,
          fun h => absurd h (by decide), fun _ _ _ _ h => by cases h⟩
      | raised e =>
        rw [show (chat_endpoint true false (AgentOutcome.raised e)).trace
            = [ChatEvent.ensureUser, ChatEvent.resolveConversation] from rfl]
        exact ⟨by decide, by decide, by decide, by decide, by decide, by decide,
          fun h => absurd h (by decide), fun _ _ _ _ h => by cases h⟩
    | true =>
      cases a with
      | ok r tcs =>
        rw [show (chat_endpoint true true (AgentOutcome.ok r tcs)).trace
            = [ChatEvent.ensureUser, ChatEvent.resolveConversation, ChatEvent.appendUserMessage,
               ChatEvent.loadHistory, ChatEvent.invokeAgent, ChatEvent.appendAssistantMessage,
               ChatEvent.touchConversation] from rfl]
        exact ⟨by decide, by decide, by decide, by decide, by decide, by decide,
          fun _ => ⟨r, tcs, rfl⟩, fun _ _ _ _ _ => by decide⟩
      | failed e =>
        rw [show (chat_endpoint true true (AgentOutcome.failed e)).trace
            = [ChatEvent.ensureUser, ChatEvent.resolveConversation, ChatEvent.appendUserMessage,
               ChatEvent.loadHistory, ChatEvent.invokeAgent] from rfl]
        exact ⟨by decide, by decide, by decide, by decide, by decide, by decide,
          fun h => absurd h (by decide), fun _ _ _ _ h => by cases h⟩
      | raised e =>
        rw [show (chat_endpoint true true (AgentOutcome.raised e)).trace
            = [ChatEvent.ensureUser, ChatEvent.resolveConversation, ChatEvent.appendUserMessage,
               ChatEvent.loadHistory, ChatEvent.invokeAgent] from rfl]
        exact ⟨by decide, by decide, by decide, by decide, by decide, by decide,
          fun h => absurd h (by decide), fun _ _ _ _ h => by cases h⟩


/-- Witness for C9 on a successful turn. -/
theorem c9_witness :
    (chat_endpoint true true (.ok "hi" ["add_task"])).trace.indexOf ChatEvent.appendUserMessage
      < (chat_endpoint true true (.ok "hi" ["add_task"])).trace.indexOf ChatEvent.invokeAgent ∧
    (chat_endpoint true true (.ok "hi" ["add_task"])).trace.indexOf ChatEvent.invokeAgent
      < (chat_endpoint true true (.ok "hi" ["add_task"])).trace.indexOf ChatEvent.appendAssistantMessage ∧
    (chat_endpoint true true (.ok "hi" ["add_task"])).trace.indexOf ChatEvent.touchConversation
      = (chat_endpoint true true (.ok "hi" ["add_task"])).trace.indexOf ChatEvent.appendAssistantMessage + 1 ∧
    (chat_endpoint true true (.ok "hi" ["add_task"])).trace.contains ChatEvent.appendAssistantMessage = true := by
  refine ⟨?_, ?_, ?_, ?_⟩
  · exact (c9_chat_turn_ordering true true (.ok "hi" ["add_task"])).1 (by decide)
  · exact (c9_chat_turn_ordering true true (.ok "hi" ["add_task"])).2.1 (by decide)
  · exact (c9_chat_turn_ordering true true (.ok "hi" ["add_task"])).2.2.2.2.1 (by decide)
  · exact (c9_chat_turn_ordering true true (.ok "hi" ["add_task"])).2.2.2.2.2.2.2
      rfl rfl "hi" ["add_task"] rfl

/-- Claim C10: complete_task, delete_task and update_task reject a non-positive task_id with the ValueError task_id must be a positive integer, independently of the store (hence before any store access), and that error differs from the not-found error each tool returns for a well-formed absent id. -/
theorem c10_nonpositive_task_id (s : Store) (now : Nat) (uid uid2 : String) (tid j : Int)
    (tf df pf : Option String) (tg : Option (List String)) (dd : Option Int)
    (rc : Option String) (ri : Option Int)
    (huid : uid ≠ "") (htid : tid ≤ 0) :
    complete_task s now uid tid = .error (.valueError "task_id must be a positive integer") ∧
    delete_task s uid tid = .error (.valueError "task_id must be a positive integer") ∧
    update_task s now uid tid tf df pf tg dd rc ri
      = .error (.valueError "task_id must be a positive integer") ∧
    (ToolError.valueError "task_id must be a positive integer"
      ≠ .genericError (completeNotFoundMsg j)) ∧
    (ToolError.valueError "task_id must be a positive integer"
      ≠ .genericError (deleteNotFoundMsg j)) ∧
    (ToolError.valueError "task_id must be a positive integer"
      ≠ .valueError (updateNotFoundMsg j uid2)) := by
  have huidb : (uid == "") = false := beq_eq_false_iff_ne.mpr huid
  refine ⟨?_, ?_, ?_, ?_, ?_, ?_⟩
  · simp [complete_task, huidb, htid]
  · simp [delete_task, huidb, htid]
  · simp [update_task, huidb, htid]
  · intro h; cases h
  · intro h; cases h
  · intro h
    have h2 := ToolError.valueError.inj h
    unfold updateNotFoundMsg at h2
    rw [String.append_assoc, String.append_assoc] at h2
    exact taskMsg_ne_validationMsg _ h2.symm

/-- Witness for C10 at task_id 0 on the empty store. -/
theorem c10_witness :
    complete_task store0 0 "u1" 0 = .error (.valueError "task_id must be a positive integer") ∧
    delete_task store0 "u1" 0 = .error (.valueError "task_id must be a positive integer") ∧
    update_task store0 0 "u1" 0 (some "x")
      = .error (.valueError "task_id must be a positive integer") ∧
    (ToolError.valueError "task_id must be a positive integer"
      ≠ .genericError (completeNotFoundMsg 3)) ∧
    (ToolError.valueError "task_id must be a positive integer"
      ≠ .genericError (deleteNotFoundMsg 3)) ∧
    (ToolError.valueError "task_id must be a positive integer"
      ≠ .valueError (updateNotFoundMsg 3 "u1")) :=
  c10_nonpositive_task_id store0 0 "u1" "u1" 0 3 (some "x") none none none none none none
    (by decide) (by decide)

end Todo
